import Mathlib

/-!
# Verification of the ReconRadar username-probing core (`src/unve1ler.py`)

Shallow embedding of the platform-probing engine: the username variation
generator, the response classifier, the per-platform prober
(`check_platform` / `try_username_variations`), the orchestrator
(`check_social_media`), and the reverse-image-search link builder.

Python strings are modelled as `List Char` (`PyStr`); the HTTP network is
an explicit oracle mapping a requested URL to a result (response, timeout,
or connection error).  Threaded batches whose workers write disjoint keys
are modelled as a sequential fold over the probed platform list, which is
the deterministic merge the code's per-platform keying guarantees.
-/

set_option maxRecDepth 100000

namespace ReconRadar

abbrev PyStr := List Char

/-- ASCII `\w` class used by `re.sub(r'[^\w]', ...)`: alphanumerics and `_`. -/
def isWordChar (c : Char) : Bool := c.isAlphanum || c == '_'

/-- Python `\s` whitespace class (ASCII). -/
def isPySpace (c : Char) : Bool :=
  c == ' ' || c == '\t' || c == '\n' || c == '\r' || c == '\x0b' || c == '\x0c'

/-- The separator class `[._\-\s]` of `re.split` in `generate_username_variations`. -/
def isSepChar (c : Char) : Bool := c == '.' || c == '_' || c == '-' || isPySpace c

/-- Python `str.lower()` (ASCII). -/
def lowerStr (s : PyStr) : PyStr := s.map Char.toLower

/-- Python `str.upper()` (ASCII). -/
def upperStr (s : PyStr) : PyStr := s.map Char.toUpper

/-- Python `str.capitalize()`: first character uppercased, the rest lowercased. -/
def capitalizeStr : PyStr → PyStr
  | [] => []
  | c :: rest => c.toUpper :: rest.map Char.toLower

/-- Python `str.islower()`: at least one cased character and no uppercase one. -/
def pyIsLower (s : PyStr) : Bool := s.any Char.isAlpha && !(s.any Char.isUpper)

/-- Python `str.isupper()`: at least one cased character and no lowercase one. -/
def pyIsUpper (s : PyStr) : Bool := s.any Char.isAlpha && !(s.any Char.isLower)

/-- `re.split` on a single-character class: keeps empty parts, never returns `[]`. -/
def splitOn (p : Char → Bool) : PyStr → List PyStr
  | [] => [[]]
  | c :: rest =>
    if p c then [] :: splitOn p rest
    else
      match splitOn p rest with
      | [] => [[c]]
      | s :: ss => (c :: s) :: ss

/-- Python `sep.join(parts)` for a one-character separator. -/
def joinSep (sep : Char) : List PyStr → PyStr
  | [] => []
  | [s] => s
  | s :: rest => s ++ sep :: joinSep sep rest

/-- Python `s.replace(a, b)` for one-character `a`, `b`. -/
def replaceChar (a b : Char) (s : PyStr) : PyStr :=
  s.map (fun c => if c == a then b else c)

/-- Python `s.replace(a, '')` for a one-character `a`. -/
def removeChar (a : Char) (s : PyStr) : PyStr := s.filter (fun c => c != a)

/-- Python `str.lstrip()`. -/
def pyLStrip (s : PyStr) : PyStr := s.dropWhile isPySpace

/-- Python `str.rstrip()`. -/
def pyRStrip (s : PyStr) : PyStr := (s.reverse.dropWhile isPySpace).reverse

/-- Python `str.strip()`. -/
def pyStrip (s : PyStr) : PyStr := pyRStrip (pyLStrip s)

/-- The ordered candidate list built by Steps 1-7 of `generate_username_variations`
(src/unve1ler.py lines 784-881), before Step 8 de-duplication. -/
def variations_list (username : PyStr) : List PyStr :=
  let has_dot := username.contains '.'
  let has_underscore := username.contains '_'
  let has_dash := username.contains '-'
  let has_space := username.contains ' '
  let clean_base := username.filter isWordChar
  let parts := splitOn isSepChar username
  [username]
  ++ (if clean_base ≠ username then [clean_base] else [])
  ++ (if 1 < parts.length then
        (if !has_dot then [joinSep '.' parts] else [])
        ++ (if !has_underscore then [joinSep '_' parts] else [])
        ++ (if !has_dash then [joinSep '-' parts] else [])
        ++ [parts.flatten]
        ++ [joinSep '.' (parts.map capitalizeStr), joinSep '_' (parts.map capitalizeStr),
            (parts.map capitalizeStr).flatten]
        ++ (if 3 < (parts.headD []).length then [parts.headD []] else [])
        ++ (if 2 < parts.length then
              [parts.headD [] ++ '.' :: parts.getLastD [],
               parts.headD [] ++ '_' :: parts.getLastD []]
            else [])
      else [])
  ++ (if has_dot then
        [replaceChar '.' '_' username, replaceChar '.' '-' username, removeChar '.' username]
      else [])
  ++ (if has_underscore then
        [replaceChar '_' '.' username, replaceChar '_' '-' username, removeChar '_' username]
      else [])
  ++ (if has_dash then
        [replaceChar '-' '.' username, replaceChar '-' '_' username, removeChar '-' username]
      else [])
  ++ (if has_space then
        [replaceChar ' ' '.' username, replaceChar ' ' '_' username,
         replaceChar ' ' '-' username, removeChar ' ' username]
      else [])
  ++ (if pyIsLower username then [upperStr username, capitalizeStr username]
      else if pyIsUpper username then [lowerStr username]
      else [lowerStr username, upperStr username])
  ++ (if !("real".data.isPrefixOf username) then ["real".data ++ username] else [])
  ++ (if !("the".data.isPrefixOf username) then ["the".data ++ username] else [])
  ++ [username ++ "1".data, username ++ "123".data, username ++ "_official".data]

/-- Step 8 of `generate_username_variations`: keep the stripped form of each entry
when it is non-empty, unseen (case-sensitively), and longer than 2 characters. -/
def uniqueFilter (seen : List PyStr) : List PyStr → List PyStr
  | [] => []
  | v :: rest =>
    let c := pyStrip v
    if c ≠ [] ∧ c ∉ seen ∧ 2 < c.length then c :: uniqueFilter (c :: seen) rest
    else uniqueFilter seen rest

/-- `generate_username_variations` (src/unve1ler.py lines 774-892). -/
def generate_username_variations (username : PyStr) : List PyStr :=
  uniqueFilter [] (variations_list username)

/-! ## Python dict operations (insertion-ordered association lists) -/

/-- `d[k]` lookup. -/
def dictGet {V : Type} (k : PyStr) : List (PyStr × V) → Option V
  | [] => none
  | e :: rest => if e.1 = k then some e.2 else dictGet k rest

/-- `d[k] = v` assignment: overwrite in place, else append (insertion order). -/
def dictSet {V : Type} (m : List (PyStr × V)) (k : PyStr) (v : V) : List (PyStr × V) :=
  if (dictGet k m).isSome then m.map (fun e => if e.1 = k then (k, v) else e)
  else m ++ [(k, v)]

/-! ## The HTTP oracle and per-platform statistics -/

/-- Outcome of one `requests.get(url, ...)` call, abstracted as an oracle keyed by
the requested URL.  `rtime` stands in for the measured wall-clock response time. -/
inductive HttpResult where
  | ok (status : Nat) (finalUrl : PyStr) (body : PyStr) (rtime : Nat)
  | timeout
  | connError (msg : PyStr) (rtime : Nat)
deriving DecidableEq

abbrev Http := PyStr → HttpResult

def TIMEOUT_SECONDS : Nat := 5
def MAX_THREADS : Nat := 15
def MAX_PLATFORMS : Nat := 40

/-- The `status_code` slot of a `platform_stats` entry: an HTTP code or the
strings `'timeout'` / `'error'`. -/
inductive PyStatus where
  | code (n : Nat)
  | timeout
  | error
deriving DecidableEq, BEq

/-- One `platform_stats[platform]` dict; keys absent in the Python dict are `none`. -/
structure PlatformStat where
  response_time : Nat
  status_code : PyStatus
  final_url : Option PyStr
  response_text : Option PyStr
  validated : Option Bool
  variation_used : Option PyStr
  error_msg : Option PyStr
deriving DecidableEq

/-! ## Response classification (src/unve1ler.py lines 173-236 and 391-450) -/

def login_indicators : List PyStr :=
  ["login".data, "signin".data, "sign-in".data, "register".data, "signup".data, "auth".data,
   "authenticate".data, "account".data, "passw".data, "404".data, "not found".data]

/-- Platform-specific error phrases used by `check_platform` (lines 180-203). -/
def error_indicators : List (PyStr × List PyStr) :=
  [("Instagram".data, ["accounts/login".data, "Page Not Found".data, "Sorry, this page".data, "isn't available".data]),
   ("Twitter".data, ["account doesn't exist".data, "user not found".data, "suspended".data, "doesn't exist".data]),
   ("Facebook".data, ["login/?next=".data, "content not found".data, "isn't available".data, "page not found".data]),
   ("LinkedIn".data, ["authwall".data, "sign up".data, "join linkedin".data, "page doesn't exist".data]),
   ("GitHub".data, ["404 not found".data, "page not found".data, "not available".data]),
   ("Telegram".data, ["join telegram".data, "preview channel".data, "/404".data]),
   ("Discord".data, ["404".data, "NOT FOUND".data, "not found".data]),
   ("Medium".data, ["not found".data, "error".data, "link is broken".data]),
   ("TikTok".data, ["couldn't find this account".data, "page unavailable".data]),
   ("Pinterest".data, ["couldn't find that page".data, "page unavailable".data]),
   ("Twitch".data, ["sorry".data, "time machine".data, "unavailable".data]),
   ("Trello".data, ["page not found".data, "This page doesn't exist".data]),
   ("VSCO".data, ["404 Not Found".data, "doesn't exist".data, "page could not be found".data]),
   ("CodePen".data, ["404".data, "not found".data]),
   ("YouTube".data, ["404".data, "not available".data, "doesn't exist".data]),
   ("Reddit".data, ["sorry".data, "nobody".data, "goes by that name".data]),
   ("Snapchat".data, ["page could not be found".data]),
   ("Behance".data, ["sorry".data, "we couldn't find".data, "not found".data]),
   ("Vero".data, ["404".data, "not found".data]),
   ("Hackernoon".data, ["404".data, "not found".data, "page could not be found".data]),
   ("HackerRank".data, ["Oops".data, "page you're looking for".data, "not found".data]),
   ("Gist".data, ["not found".data, "404".data, "doesn't exist".data])]

/-- The smaller error-phrase table duplicated inside `try_username_variations`
(lines 398-414); it lacks the YouTube..Gist tail of the primary table. -/
def error_indicators_var : List (PyStr × List PyStr) :=
  [("Instagram".data, ["accounts/login".data, "Page Not Found".data, "Sorry, this page".data, "isn't available".data]),
   ("Twitter".data, ["account doesn't exist".data, "user not found".data, "suspended".data, "doesn't exist".data]),
   ("Facebook".data, ["login/?next=".data, "content not found".data, "isn't available".data, "page not found".data]),
   ("LinkedIn".data, ["authwall".data, "sign up".data, "join linkedin".data, "page doesn't exist".data]),
   ("GitHub".data, ["404 not found".data, "page not found".data, "not available".data]),
   ("Telegram".data, ["join telegram".data, "preview channel".data, "/404".data]),
   ("Discord".data, ["404".data, "NOT FOUND".data, "not found".data]),
   ("Medium".data, ["not found".data, "error".data, "link is broken".data]),
   ("TikTok".data, ["couldn't find this account".data, "page unavailable".data]),
   ("Pinterest".data, ["couldn't find that page".data, "page unavailable".data]),
   ("Twitch".data, ["sorry".data, "time machine".data, "unavailable".data]),
   ("Trello".data, ["page not found".data, "This page doesn't exist".data]),
   ("VSCO".data, ["404 Not Found".data, "doesn't exist".data, "page could not be found".data]),
   ("CodePen".data, ["404".data, "not found".data]),
   ("Gist".data, ["not found".data, "404".data, "doesn't exist".data])]

def generic_error_patterns : List PyStr :=
  ["404".data, "not found".data, "doesn't exist".data, "page unavailable".data, "no such user".data]

def profile_indicators : List PyStr :=
  ["followers".data, "following".data, "tweets".data, "posts".data, "photos".data, "profile".data]

/-- `needle` is a prefix of `hay`. -/
def startsWith : PyStr → PyStr → Bool
  | [], _ => true
  | _ :: _, [] => false
  | a :: as, b :: bs => a == b && startsWith as bs

/-- Python's substring test `needle in hay`. -/
def containsSub (needle : PyStr) : PyStr → Bool
  | [] => needle.isEmpty
  | c :: rest => startsWith needle (c :: rest) || containsSub needle rest

/-- `redirected_to_login`: a login indicator occurs in the lowercased final URL. -/
def redirectedToLogin (finalUrl : PyStr) : Bool :=
  login_indicators.any (fun ind => containsSub ind (lowerStr finalUrl))

/-- `has_error_indicators`: platform-specific phrases when the platform is in the
table, generic patterns otherwise (case-insensitive substring search in the body). -/
def hasErrorIndicators (table : List (PyStr × List PyStr)) (platform body : PyStr) : Bool :=
  match dictGet platform table with
  | some inds => inds.any (fun i => containsSub (lowerStr i) (lowerStr body))
  | none => generic_error_patterns.any (fun p => containsSub (lowerStr p) (lowerStr body))

/-- The `profile_exists` decision shared by `check_platform` (lines 218-236) and
`try_username_variations` (lines 430-450); the two sites differ only in which
error-phrase table they consult, so it is passed as `table`. -/
def profileExists (table : List (PyStr × List PyStr)) (platform : PyStr) (status : Nat)
    (finalUrl body : PyStr) : Bool :=
  if platform == "Instagram".data &&
      (containsSub "accounts/login".data finalUrl || containsSub "login".data finalUrl) then false
  else if platform == "Facebook".data &&
      (containsSub "login".data finalUrl || containsSub "/login/".data finalUrl) then false
  else if platform == "LinkedIn".data &&
      (containsSub "authwall".data finalUrl || containsSub "login".data finalUrl) then false
  else if platform == "Codechef".data && status == 302 then true
  else
    let base := status == 200 && !(hasErrorIndicators table platform body)
                  && !(redirectedToLogin finalUrl)
    if base && ["Twitter".data, "Instagram".data, "Facebook".data].contains platform then
      profile_indicators.any (fun ind => containsSub ind (lowerStr body))
    else base

/-! ## `try_username_variations` (src/unve1ler.py lines 281-472) -/

/-- `re.sub(r'[^\w.-]', '', var)`: the per-variation cleaning (line 298). -/
def cleanVar (var : PyStr) : PyStr :=
  var.filter (fun c => isWordChar c || c == '.' || c == '-')

/-- The generic fallback of the variation-URL chain (lines 363-375): split the
stored original URL on `/`, replace the first non-empty segment equal
case-insensitively to the cleaned variation, and re-join; `""` when no
segment matches. -/
def replaceFirstPart : List PyStr → PyStr → Option (List PyStr)
  | [], _ => none
  | p :: rest, cv =>
    if p ≠ [] ∧ lowerStr p = lowerStr cv then some (cv :: rest)
    else (replaceFirstPart rest cv).map (p :: ·)

def genericVarUrl (original_url clean_var : PyStr) : PyStr :=
  match replaceFirstPart (splitOn (· == '/') original_url) clean_var with
  | some parts => joinSep '/' parts
  | none => []

/-- The `if platform == ... : var_url = f"..."` chain of lines 303-375 building the
variation URL, falling back to the generic reconstruction from `results[platform]`. -/
def variation_url (platform clean_var : PyStr)
    (results : List (PyStr × Option PyStr)) : PyStr :=
  if platform == "Instagram".data then "https://www.instagram.com/".data ++ clean_var ++ "/".data
  else if platform == "Twitter".data then "https://twitter.com/".data ++ clean_var
  else if platform == "GitHub".data then "https://github.com/".data ++ clean_var
  else if platform == "Telegram".data then "https://t.me/".data ++ clean_var
  else if platform == "TikTok".data then "https://www.tiktok.com/@".data ++ clean_var
  else if platform == "Facebook".data then "https://www.facebook.com/".data ++ clean_var
  else if platform == "LinkedIn".data then "https://www.linkedin.com/in/".data ++ clean_var ++ "/".data
  else if platform == "Pinterest".data then "https://www.pinterest.com/".data ++ clean_var
  else if platform == "Snapchat".data then "https://www.snapchat.com/add/".data ++ clean_var
  else if platform == "Linktr.ee".data then "https://linktr.ee/".data ++ clean_var
  else if platform == "Gitlab".data then "https://gitlab.com/".data ++ clean_var
  else if platform == "Reddit".data then "https://www.reddit.com/user/".data ++ clean_var
  else if platform == "YouTube".data then "https://www.youtube.com/user/".data ++ clean_var
  else if platform == "Tumblr".data then "https://".data ++ clean_var ++ ".tumblr.com".data
  else if platform == "Vimeo".data then "https://vimeo.com/".data ++ clean_var
  else if platform == "SoundCloud".data then "https://soundcloud.com/".data ++ clean_var
  else if platform == "Flickr".data then "https://www.flickr.com/people/".data ++ clean_var ++ "/".data
  else if platform == "Dribbble".data then "https://dribbble.com/".data ++ clean_var
  else if platform == "Medium".data then "https://medium.com/@".data ++ clean_var
  else if platform == "DeviantArt".data then "https://".data ++ clean_var ++ ".deviantart.com".data
  else if platform == "Quora".data then "https://www.quora.com/profile/".data ++ clean_var
  else if platform == "Steam".data then "https://steamcommunity.com/id/".data ++ clean_var
  else if platform == "Discord".data then "https://discord.com/users/".data ++ clean_var
  else if platform == "Twitch".data then "https://www.twitch.tv/".data ++ clean_var
  else if platform == "HackerRank".data then "https://hackerrank.com/".data ++ clean_var
  else if platform == "Hackernoon".data then "https://hackernoon.com/u/".data ++ clean_var
  else if platform == "Trello".data then "https://trello.com/".data ++ clean_var
  else if platform == "Codechef".data then "https://www.codechef.com/users/".data ++ clean_var
  else if platform == "Gist".data then "https://gist.github.com/".data ++ clean_var
  else
    match dictGet platform results with
    | some (some original_url) =>
      if original_url ≠ [] ∧ containsSub "://".data original_url = true then
        genericVarUrl original_url clean_var
      else []
    | _ => []

/-- Result of one prober call: the updated shared dicts, the Python return value,
and the URLs requested (in order) during the call. -/
structure TryResult where
  results : List (PyStr × Option PyStr)
  platform_stats : List (PyStr × PlatformStat)
  found : Bool
  requests : List PyStr
deriving DecidableEq

/-- The `for var in variations[1:]` loop of `try_username_variations`: build the
variation URL (skipping when it is empty), issue the GET, classify with the
variation-local error table, stop and record on the first Found; any request
exception is swallowed and the loop continues. -/
def tryVariationsLoop (platform : PyStr) (http : Http) :
    List PyStr → List (PyStr × Option PyStr) → List (PyStr × PlatformStat) → TryResult
  | [], results, pstats => ⟨results, pstats, false, []⟩
  | var :: rest, results, pstats =>
    let clean_var := cleanVar var
    let var_url := variation_url platform clean_var results
    if var_url = [] then tryVariationsLoop platform http rest results pstats
    else
      match http var_url with
      | .ok status finalUrl body rt =>
        if profileExists error_indicators_var platform status finalUrl body then
          ⟨dictSet results platform (some var_url),
           dictSet pstats platform ⟨rt, .code status, some finalUrl, some body, some true, some var, none⟩,
           true, [var_url]⟩
        else
          let t := tryVariationsLoop platform http rest results pstats
          ⟨t.results, t.platform_stats, t.found, var_url :: t.requests⟩
      | .timeout =>
          let t := tryVariationsLoop platform http rest results pstats
          ⟨t.results, t.platform_stats, t.found, var_url :: t.requests⟩
      | .connError _ _ =>
          let t := tryVariationsLoop platform http rest results pstats
          ⟨t.results, t.platform_stats, t.found, var_url :: t.requests⟩

/-- `try_username_variations` (lines 281-472): skips `variations[0]` (the primary
username, already tried by `check_platform`). -/
def try_username_variations (platform : PyStr) (variations : List PyStr)
    (results : List (PyStr × Option PyStr)) (pstats : List (PyStr × PlatformStat))
    (http : Http) : TryResult :=
  tryVariationsLoop platform http (variations.drop 1) results pstats

/-! ## `check_platform` (src/unve1ler.py lines 138-279) -/

/-- `check_platform`: one primary GET; on response, record stats (including the
later `validated`/`variation_used` updates of lines 239-241), classify, and on
NotFound fall through to the variations; on timeout/connection error record the
corresponding stat and a `None` result.  `username` here is the cleaned username
the orchestrator passes (line 1059). -/
def check_platform (username platform url : PyStr) (variations : List PyStr)
    (results : List (PyStr × Option PyStr)) (pstats : List (PyStr × PlatformStat))
    (http : Http) : TryResult :=
  match http url with
  | .ok status finalUrl body rt =>
    let pe := profileExists error_indicators platform status finalUrl body
    let pstats1 := dictSet pstats platform
      ⟨rt, .code status, some finalUrl, some body, some pe, some username, none⟩
    if pe then ⟨dictSet results platform (some url), pstats1, true, [url]⟩
    else
      let t := try_username_variations platform variations results pstats1 http
      if t.found then ⟨t.results, t.platform_stats, true, url :: t.requests⟩
      else ⟨dictSet t.results platform none, t.platform_stats, false, url :: t.requests⟩
  | .timeout =>
    ⟨dictSet results platform none,
     dictSet pstats platform ⟨TIMEOUT_SECONDS, .timeout, none, none, none, none, none⟩,
     false, [url]⟩
  | .connError msg rt =>
    ⟨dictSet results platform none,
     dictSet pstats platform ⟨rt, .error, none, none, none, none, some msg⟩,
     false, [url]⟩

/-! ## The platform catalog and orchestrator `check_social_media` (lines 894-1186) -/

/-- The static platform catalog of lines 915-1010, as a function of the cleaned
username `c` interpolated into each URL template (insertion order preserved). -/
def platformsCatalog (c : PyStr) : List (PyStr × PyStr) :=
  [("Instagram".data, "https://www.instagram.com/".data ++ c ++ "/".data),
   ("Twitter".data, "https://twitter.com/".data ++ c),
   ("Facebook".data, "https://www.facebook.com/".data ++ c),
   ("LinkedIn".data, "https://www.linkedin.com/in/".data ++ c ++ "/".data),
   ("Pinterest".data, "https://www.pinterest.com/".data ++ c),
   ("TikTok".data, "https://www.tiktok.com/@".data ++ c),
   ("Snapchat".data, "https://www.snapchat.com/add/".data ++ c),
   ("Linktr.ee".data, "https://linktr.ee/".data ++ c),
   ("GitHub".data, "https://github.com/".data ++ c),
   ("Gitlab".data, "https://gitlab.com/".data ++ c),
   ("Reddit".data, "https://www.reddit.com/user/".data ++ c),
   ("YouTube".data, "https://www.youtube.com/user/".data ++ c),
   ("Tumblr".data, "https://".data ++ c ++ ".tumblr.com".data),
   ("Vimeo".data, "https://vimeo.com/".data ++ c),
   ("SoundCloud".data, "https://soundcloud.com/".data ++ c),
   ("Flickr".data, "https://www.flickr.com/people/".data ++ c ++ "/".data),
   ("Dribbble".data, "https://dribbble.com/".data ++ c),
   ("Medium".data, "https://medium.com/@".data ++ c),
   ("DeviantArt".data, "https://".data ++ c ++ ".deviantart.com".data),
   ("Quora".data, "https://www.quora.com/profile/".data ++ c),
   ("Mix".data, "https://mix.com/".data ++ c),
   ("Meetup".data, "https://www.meetup.com/members/".data ++ c),
   ("Goodreads".data, "https://www.goodreads.com/user/show/".data ++ c),
   ("Fiverr".data, "https://www.fiverr.com/".data ++ c),
   ("Wattpad".data, "https://www.wattpad.com/user/".data ++ c),
   ("Steam".data, "https://steamcommunity.com/id/".data ++ c),
   ("Viber".data, "https://chats.viber.com/".data ++ c),
   ("Slack".data, "https://".data ++ c ++ ".slack.com".data),
   ("Xing".data, "https://www.xing.com/profile/".data ++ c),
   ("Canva".data, "https://www.canva.com/".data ++ c),
   ("500px".data, "https://500px.com/".data ++ c),
   ("Last.fm".data, "https://www.last.fm/user/".data ++ c),
   ("Foursquare".data, "https://foursquare.com/user/".data ++ c),
   ("Kik".data, "https://kik.me/".data ++ c),
   ("Patreon".data, "https://www.patreon.com/".data ++ c),
   ("Periscope".data, "https://www.pscp.tv/".data ++ c),
   ("Twitch".data, "https://www.twitch.tv/".data ++ c),
   ("Steemit".data, "https://steemit.com/@".data ++ c),
   ("Vine".data, "https://vine.co/u/".data ++ c),
   ("Keybase".data, "https://keybase.io/".data ++ c),
   ("Zillow".data, "https://www.zillow.com/profile/".data ++ c),
   ("TripAdvisor".data, "https://www.tripadvisor.com/members/".data ++ c),
   ("Crunchyroll".data, "https://www.crunchyroll.com/user/".data ++ c),
   ("Trello".data, "https://trello.com/".data ++ c),
   ("Vero".data, "https://www.vero.co/".data ++ c),
   ("CodePen".data, "https://codepen.io/".data ++ c),
   ("About.me".data, "https://about.me/".data ++ c),
   ("Trakt".data, "https://www.trakt.tv/users/".data ++ c),
   ("Couchsurfing".data, "https://www.couchsurfing.com/people/".data ++ c),
   ("Behance".data, "https://www.behance.net/".data ++ c),
   ("Etsy".data, "https://www.etsy.com/shop/".data ++ c),
   ("Ebay".data, "https://www.ebay.com/usr/".data ++ c),
   ("Bandcamp".data, "https://bandcamp.com/".data ++ c),
   ("AngelList".data, "https://angel.co/u/".data ++ c),
   ("Ello".data, "https://ello.co/".data ++ c),
   ("Gravatar".data, "https://en.gravatar.com/".data ++ c),
   ("Instructables".data, "https://www.instructables.com/member/".data ++ c),
   ("VSCO".data, "https://vsco.co/".data ++ c),
   ("Letterboxd".data, "https://letterboxd.com/".data ++ c),
   ("Houzz".data, "https://www.houzz.com/user/".data ++ c),
   ("Digg".data, "https://digg.com/@".data ++ c),
   ("Giphy".data, "https://giphy.com/".data ++ c),
   ("Anchor".data, "https://anchor.fm/".data ++ c),
   ("Scribd".data, "https://www.scribd.com/".data ++ c),
   ("Grubhub".data, "https://www.grubhub.com/profile/".data ++ c),
   ("ReverbNation".data, "https://www.reverbnation.com/".data ++ c),
   ("Squarespace".data, "https://".data ++ c ++ ".squarespace.com".data),
   ("Mixcloud".data, "https://www.mixcloud.com/".data ++ c),
   ("IMDb".data, "https://www.imdb.com/user/ur".data ++ c),
   ("LinkBio".data, "https://lnk.bio/".data ++ c),
   ("Replit".data, "https://replit.com/@".data ++ c),
   ("Ifttt".data, "https://ifttt.com/p/".data ++ c),
   ("Weebly".data, "https://".data ++ c ++ ".weebly.com/".data),
   ("Smule".data, "https://www.smule.com/".data ++ c),
   ("Wordpress".data, "https://".data ++ c ++ ".wordpress.com/".data),
   ("Tryhackme".data, "https://tryhackme.com/p/".data ++ c),
   ("Myspace".data, "https://myspace.com/".data ++ c),
   ("Freelancer".data, "https://www.freelancer.com/u/".data ++ c),
   ("Dev.to".data, "https://dev.to/".data ++ c),
   ("Blogspot".data, "https://".data ++ c ++ ".blogspot.com".data),
   ("Gist".data, "https://gist.github.com/".data ++ c),
   ("Viki".data, "https://www.viki.com/users/".data ++ c ++ "/about".data),
   ("Discord".data, "https://discord.com/users/".data ++ c),
   ("Telegram".data, "https://t.me/".data ++ c),
   ("Discord.me".data, "https://discord.me/user/".data ++ c),
   ("HackerOne".data, "https://hackerone.com/".data ++ c),
   ("Kaggle".data, "https://www.kaggle.com/".data ++ c),
   ("Hackernoon".data, "https://hackernoon.com/u/".data ++ c),
   ("ProductHunt".data, "https://www.producthunt.com/@".data ++ c),
   ("Atlassian".data, "https://community.atlassian.com/t5/user/".data ++ c),
   ("HackerRank".data, "https://hackerrank.com/".data ++ c),
   ("LeetCode".data, "https://leetcode.com/".data ++ c),
   ("Codechef".data, "https://www.codechef.com/users/".data ++ c),
   ("Mastodon".data, "https://mastodon.social/@".data ++ c)]

/-- `top_platforms` (lines 1027-1033); note `"Spotify"` has no catalog entry. -/
def top_platforms : List PyStr :=
  ["Instagram".data, "Twitter".data, "Facebook".data, "TikTok".data, "LinkedIn".data,
   "GitHub".data, "Reddit".data, "Pinterest".data, "YouTube".data, "Snapchat".data,
   "Twitch".data, "Medium".data, "Telegram".data, "Discord".data, "Tumblr".data,
   "SoundCloud".data, "Spotify".data, "Linktr.ee".data, "Behance".data, "Dribbble".data,
   "Flickr".data, "DeviantArt".data, "Trello".data, "Gitlab".data, "Steam".data]

/-- First loop of lines 1039-1041: insert each top platform present in the catalog. -/
def prioritizeTop (platforms : List (PyStr × PyStr)) : List (PyStr × PyStr) :=
  top_platforms.foldl (fun acc p =>
    match dictGet p platforms with
    | some url => dictSet acc p url
    | none => acc) []

/-- One step of the filling loop of lines 1046-1048: append a catalog entry when
its name is fresh and fewer than `MAX_PLATFORMS` slots are taken. -/
def prioritizeFillStep (acc : List (PyStr × PyStr)) (e : PyStr × PyStr) :
    List (PyStr × PyStr) :=
  if (dictGet e.1 acc).isSome = false ∧ acc.length < MAX_PLATFORMS then acc ++ [e] else acc

/-- Lines 1036-1048: top platforms present in the catalog first, then remaining
catalog entries in order until `MAX_PLATFORMS` slots are filled. -/
def prioritizedPlatforms (platforms : List (PyStr × PyStr)) : List (PyStr × PyStr) :=
  let top := prioritizeTop platforms
  if 0 < MAX_PLATFORMS - top.length then platforms.foldl prioritizeFillStep top else top

/-- The catalog's platform names, in insertion order. -/
def catalogNames : List PyStr := (platformsCatalog []).map Prod.fst

/-- The names of the (at most 40) platforms actually probed, computed on the
catalog's keys (which do not depend on the username). -/
def prioritizedNames : List PyStr := (prioritizedPlatforms (platformsCatalog [])).map Prod.fst

/-- Accumulated orchestrator state: the shared `results` and `platform_stats`
dicts plus a log of every `(platform, url)` request issued. -/
structure OrchState where
  results : List (PyStr × Option PyStr)
  platform_stats : List (PyStr × PlatformStat)
  reqlog : List (PyStr × PyStr)
deriving DecidableEq

/-- The batched thread fan-out of lines 1050-1066, sequentialized: each worker
writes only its own platform key, so joining batches in order is the
deterministic merge of the threaded run. -/
def runPlatforms (clean : PyStr) (vars : List PyStr) (http : Http) :
    List (PyStr × PyStr) → List (PyStr × Option PyStr) → List (PyStr × PlatformStat) → OrchState
  | [], results, pstats => ⟨results, pstats, []⟩
  | e :: rest, results, pstats =>
    let c := check_platform clean e.1 e.2 vars results pstats http
    let r := runPlatforms clean vars http rest c.results c.platform_stats
    ⟨r.results, r.platform_stats, c.requests.map (fun q => (e.1, q)) ++ r.reqlog⟩

/-- The `stats` dict compiled at lines 1171-1183 (serializable fields only; the
wall-clock and date fields are outside the embedding). -/
structure RunStats where
  target : PyStr
  platforms_checked : Nat
  profiles_found : Nat
  timeouts : Nat
  errors : Nat
  username_variations : List PyStr
deriving DecidableEq

/-- What `check_social_media` returns (metadata extraction and the image branch
are modelled separately): the `found_profiles` mapping, the stats record, and
the internal dicts plus request log. -/
structure RunResult where
  found_profiles : List (PyStr × PyStr)
  stats : RunStats
  results : List (PyStr × Option PyStr)
  platform_stats : List (PyStr × PlatformStat)
  reqlog : List (PyStr × PyStr)
deriving DecidableEq

/-- `check_social_media` (lines 894-1186), network abstracted as `http`. -/
def check_social_media (username : PyStr) (http : Http) : RunResult :=
  let username_variations := generate_username_variations username
  let clean_username := cleanVar username
  let platforms := platformsCatalog clean_username
  let prioritized := prioritizedPlatforms platforms
  let st := runPlatforms clean_username username_variations http prioritized [] []
  let found_count := st.results.countP (fun e => e.2.isSome)
  let timeouts := st.platform_stats.countP (fun e => e.2.status_code == PyStatus.timeout)
  let errors := st.platform_stats.countP (fun e => e.2.status_code == PyStatus.error)
  let found_profiles := st.results.filterMap (fun e =>
    match e.2 with
    | some u => if u ≠ [] then some (e.1, u) else none
    | none => none)
  ⟨found_profiles,
   ⟨username, platforms.length, found_count, timeouts, errors, username_variations⟩,
   st.results, st.platform_stats, st.reqlog⟩

/-! ## Reverse image search link builder (src/unve1ler.py lines 1142-1152) -/

/-- UTF-8 bytes of one character. -/
def utf8Bytes (c : Char) : List Nat :=
  let n := c.toNat
  if n < 0x80 then [n]
  else if n < 0x800 then [0xC0 + n / 64, 0x80 + n % 64]
  else if n < 0x10000 then [0xE0 + n / 4096, 0x80 + n / 64 % 64, 0x80 + n % 64]
  else [0xF0 + n / 262144, 0x80 + n / 4096 % 64, 0x80 + n / 64 % 64, 0x80 + n % 64]

/-- Uppercase hexadecimal digit. -/
def hexDigit (n : Nat) : Char :=
  if n < 10 then Char.ofNat (48 + n) else Char.ofNat (55 + n)

/-- `urllib.parse.quote_plus`: keep `[A-Za-z0-9_.~-]`, turn spaces into `+`,
percent-encode every other character byte-wise (UTF-8, uppercase hex). -/
def quote_plus (s : PyStr) : PyStr :=
  s.flatMap (fun c =>
    if c.isAlphanum || c == '_' || c == '.' || c == '-' || c == '~' then [c]
    else if c == ' ' then ['+']
    else (utf8Bytes c).flatMap (fun b => ['%', hexDigit (b / 16), hexDigit (b % 16)]))

/-- The `reverse_image_urls` dict built at lines 1144-1152 from the (possibly
redirect-resolved) direct image URL. -/
def reverse_image_urls (direct_url : PyStr) : List (PyStr × PyStr) :=
  let encoded_image_url := quote_plus direct_url
  [("Google".data, "https://lens.google.com/uploadbyurl?url=".data ++ encoded_image_url),
   ("Bing".data,
    "https://www.bing.com/images/search?view=detailv2&iss=sbi&form=SBIVSP&sbisrc=UrlPaste&q=imgurl:".data
      ++ encoded_image_url),
   ("Yandex".data, "https://yandex.com/images/search?source=collections&&url=".data
      ++ encoded_image_url ++ "&rpt=imageview".data),
   ("Baidu".data, "https://graph.baidu.com/details?isfromtusoupc=1&tn=pc&carousel=0&image=".data
      ++ encoded_image_url),
   ("TinEye".data, "https://tineye.com/search?url=".data ++ encoded_image_url)]


/-! ## Spec-side definitions used to state refinement claims -/

/-- The platform-specific substitution rules of the `if platform == ...` chain in
`try_username_variations` (lines 303-361), read off as `(name, prefix, suffix)`
triples: the variation URL is `prefix ++ cleaned-variation ++ suffix`. -/
def variation_url_table : List (PyStr × PyStr × PyStr) :=
  [   ("Instagram".data, "https://www.instagram.com/".data, "/".data),
   ("Twitter".data, "https://twitter.com/".data, "".data),
   ("GitHub".data, "https://github.com/".data, "".data),
   ("Telegram".data, "https://t.me/".data, "".data),
   ("TikTok".data, "https://www.tiktok.com/@".data, "".data),
   ("Facebook".data, "https://www.facebook.com/".data, "".data),
   ("LinkedIn".data, "https://www.linkedin.com/in/".data, "/".data),
   ("Pinterest".data, "https://www.pinterest.com/".data, "".data),
   ("Snapchat".data, "https://www.snapchat.com/add/".data, "".data),
   ("Linktr.ee".data, "https://linktr.ee/".data, "".data),
   ("Gitlab".data, "https://gitlab.com/".data, "".data),
   ("Reddit".data, "https://www.reddit.com/user/".data, "".data),
   ("YouTube".data, "https://www.youtube.com/user/".data, "".data),
   ("Tumblr".data, "https://".data, ".tumblr.com".data),
   ("Vimeo".data, "https://vimeo.com/".data, "".data),
   ("SoundCloud".data, "https://soundcloud.com/".data, "".data),
   ("Flickr".data, "https://www.flickr.com/people/".data, "/".data),
   ("Dribbble".data, "https://dribbble.com/".data, "".data),
   ("Medium".data, "https://medium.com/@".data, "".data),
   ("DeviantArt".data, "https://".data, ".deviantart.com".data),
   ("Quora".data, "https://www.quora.com/profile/".data, "".data),
   ("Steam".data, "https://steamcommunity.com/id/".data, "".data),
   ("Discord".data, "https://discord.com/users/".data, "".data),
   ("Twitch".data, "https://www.twitch.tv/".data, "".data),
   ("HackerRank".data, "https://hackerrank.com/".data, "".data),
   ("Hackernoon".data, "https://hackernoon.com/u/".data, "".data),
   ("Trello".data, "https://trello.com/".data, "".data),
   ("Codechef".data, "https://www.codechef.com/users/".data, "".data),
   ("Gist".data, "https://gist.github.com/".data, "".data)]

/-- Whether a GET of `u` classifies as Found for `platform` under the
variation-local error table (request exceptions count as not found, matching
the `except: continue` of lines 468-470). -/
def variationFound (platform : PyStr) (http : Http) (u : PyStr) : Bool :=
  match http u with
  | .ok status finalUrl body _ => profileExists error_indicators_var platform status finalUrl body
  | _ => false

/-- Spec-side reading of the variation retry (spec section 4.3 step 4): iterate
the variations in order, substitute each cleaned variation into the platform URL
pattern, issue a GET for it, and stop at the first Found. Returns the URLs
requested, in order. -/
def spec_variation_requests (pre suf : PyStr) (found : PyStr → Bool) : List PyStr → List PyStr
  | [] => []
  | var :: rest =>
    let u := pre ++ cleanVar var ++ suf
    if found u then [u] else u :: spec_variation_requests pre suf found rest

/-- Oracle on which every request times out. -/
def timeoutOracle : Http := fun _ => HttpResult.timeout

/-- Oracle on which every request yields a bare 404 (classified NotFound for
every platform whose error table lacks a phrase matching the empty body). -/
def notFoundOracle : Http := fun u => HttpResult.ok 404 u [] 1

/-! # General lemmas

## Step-8 de-duplication (`uniqueFilter`) -/

theorem uniqueFilter_sound (l : List PyStr) : ∀ seen : List PyStr,
    (uniqueFilter seen l).Nodup ∧ ∀ x ∈ uniqueFilter seen l, x ∉ seen := by
  induction l with
  | nil => intro seen; simp [uniqueFilter]
  | cons v rest ih =>
    intro seen
    simp only [uniqueFilter]
    split
    case isTrue h =>
      obtain ⟨ihn, ihs⟩ := ih (pyStrip v :: seen)
      refine ⟨List.nodup_cons.mpr ⟨fun hmem => ?_, ihn⟩, ?_⟩
      · exact (ihs _ hmem) (List.mem_cons_self _ _)
      · intro x hx
        rcases List.mem_cons.mp hx with rfl | hx2
        · exact h.2.1
        · intro hxs; exact (ihs x hx2) (List.mem_cons_of_mem _ hxs)
    case isFalse h => exact ih seen

theorem uniqueFilter_cons_pos (seen : List PyStr) (v : PyStr) (rest : List PyStr)
    (h : pyStrip v ≠ [] ∧ pyStrip v ∉ seen ∧ 2 < (pyStrip v).length) :
    uniqueFilter seen (v :: rest) = pyStrip v :: uniqueFilter (pyStrip v :: seen) rest := by
  simp only [uniqueFilter]
  rw [if_pos h]

theorem uniqueFilter_eq_nil (l : List PyStr) : ∀ seen : List PyStr, uniqueFilter seen l = [] →
    ∀ v ∈ l, pyStrip v ∈ seen ∨ ¬(pyStrip v ≠ [] ∧ 2 < (pyStrip v).length) := by
  induction l with
  | nil => simp
  | cons v rest ih =>
    intro seen h w hw
    revert h
    simp only [uniqueFilter]
    split
    case isTrue hc => intro h; exact absurd h (List.cons_ne_nil _ _)
    case isFalse hc =>
      intro h
      rcases List.mem_cons.mp hw with rfl | hw2
      · by_cases hs : pyStrip w ∈ seen
        · exact Or.inl hs
        · refine Or.inr fun hval => hc ⟨hval.1, hs, hval.2⟩
      · exact ih seen h w hw2

/-! ## Python `strip` on strings with a fixed non-space suffix -/

theorem pyLStrip_append_nonspace (u : PyStr) (c : Char) (s : PyStr)
    (hc : isPySpace c = false) : pyLStrip (u ++ c :: s) = pyLStrip u ++ c :: s := by
  induction u with
  | nil => simp [pyLStrip, List.dropWhile, hc]
  | cons a u ih =>
    by_cases ha : isPySpace a
    · simpa [pyLStrip, List.dropWhile, ha] using ih
    · simp [pyLStrip, List.dropWhile, ha]

theorem pyRStrip_append_single (w : PyStr) (d : Char) (hd : isPySpace d = false) :
    pyRStrip (w ++ [d]) = w ++ [d] := by
  unfold pyRStrip
  rw [List.reverse_append]
  simp [List.dropWhile, hd]

theorem pyStrip_append_official (u : PyStr) :
    pyStrip (u ++ "_official".data) = pyLStrip u ++ "_official".data := by
  unfold pyStrip
  rw [show ("_official".data : PyStr) = '_' :: "official".data from rfl,
    pyLStrip_append_nonspace u '_' "official".data (by decide)]
  rw [show ('_' :: "official".data : PyStr) = "_officia".data ++ ['l'] from rfl,
    ← List.append_assoc,
    pyRStrip_append_single (pyLStrip u ++ "_officia".data) 'l' (by decide),
    List.append_assoc]

theorem official_mem_variations (u : PyStr) :
    u ++ "_official".data ∈ variations_list u := by
  unfold variations_list
  simp

/-! # Claim C2 -/

/-- C2 as stated is false: `generate_username_variations` de-duplicates
case-SENSITIVELY, so `"john_doe"` yields both `"johndoe"` and `"JohnDoe"` —
two case-insensitively equal entries; moreover for the non-empty username
`"ab"` (length < 3) the first element is not `"ab"`. -/
theorem C2_counterexample :
    ("johndoe".data ∈ generate_username_variations "john_doe".data ∧
     "JohnDoe".data ∈ generate_username_variations "john_doe".data ∧
     lowerStr "johndoe".data = lowerStr "JohnDoe".data ∧
     ("johndoe".data : PyStr) ≠ "JohnDoe".data) ∧
    (generate_username_variations "ab".data).head? ≠ some "ab".data := by decide

/-- C2 amended: for every username without surrounding whitespace and of length
at least 3, the variation list's first element is the username itself; and for
every username the list has no duplicates case-SENSITIVELY (case-insensitive
duplicates may remain). -/
theorem C2_amended (u : PyStr) :
    (pyStrip u = u → 2 < u.length → (generate_username_variations u).head? = some u) ∧
    (generate_username_variations u).Nodup := by
  constructor
  · intro hs hl
    obtain ⟨t, ht⟩ : ∃ t, variations_list u = u :: t := ⟨_, rfl⟩
    unfold generate_username_variations
    rw [ht, uniqueFilter_cons_pos [] u t
      ⟨by rw [hs]; intro hn; rw [hn] at hl; simp at hl, by simp, by rwa [hs]⟩, hs]
    rfl
  · exact (uniqueFilter_sound _ []).1

/-- Witness for `C2_amended` at the concrete username `"john_doe"`. -/
theorem C2_amended_witness :
    (generate_username_variations "john_doe".data).head? = some "john_doe".data ∧
    (generate_username_variations "john_doe".data).Nodup :=
  ⟨(C2_amended "john_doe".data).1 (by decide) (by decide),
   (C2_amended "john_doe".data).2⟩

/-! # Claim C3 -/

/-- C3 as stated is false: the empty username does not produce `[]` — the
prefix/suffix variants of Step 7 survive de-duplication, and a whitespace-only
username behaves the same way. -/
theorem C3_counterexample :
    generate_username_variations "".data =
      ["real".data, "the".data, "123".data, "_official".data] ∧
    generate_username_variations " ".data ≠ [] := by decide

/-- C3 amended: `generate_username_variations` never returns the empty list —
for every input (empty and whitespace-only inputs included) the entry
`username + "_official"` survives Step 8, so the result is non-empty. -/
theorem C3_amended (u : PyStr) : 0 < (generate_username_variations u).length := by
  by_contra h
  have hnil : generate_username_variations u = [] :=
    List.eq_nil_of_length_eq_zero (Nat.le_zero.mp (Nat.not_lt.mp h))
  have hc := uniqueFilter_eq_nil _ [] hnil (u ++ "_official".data) (official_mem_variations u)
  rcases hc with h1 | h2
  · simp at h1
  · apply h2
    rw [pyStrip_append_official]
    constructor
    · intro hh
      have := congrArg List.length hh
      simp at this
    · simp

/-! ## Association-list (Python dict) lemmas -/

theorem dictGet_eq_none_iff {V : Type} (k : PyStr) (m : List (PyStr × V)) :
    dictGet k m = none ↔ ∀ e ∈ m, e.1 ≠ k := by
  induction m with
  | nil => simp [dictGet]
  | cons e rest ih =>
    by_cases h : e.1 = k
    · rw [dictGet, if_pos h]
      constructor
      · intro hc; exact absurd hc (Option.some_ne_none _)
      · intro hall; exact absurd h (hall e (List.mem_cons_self _ _))
    · rw [dictGet, if_neg h, ih]
      constructor
      · intro hall e2 he2
        rcases List.mem_cons.mp he2 with rfl | h2
        · exact h
        · exact hall _ h2
      · intro hall e2 he2
        exact hall _ (List.mem_cons_of_mem _ he2)

theorem dictGet_mem {V : Type} {k : PyStr} {m : List (PyStr × V)} {v : V}
    (h : dictGet k m = some v) : (k, v) ∈ m := by
  induction m with
  | nil => exact absurd h (by rw [dictGet]; exact Option.noConfusion)
  | cons e rest ih =>
    by_cases he : e.1 = k
    · rw [dictGet, if_pos he] at h
      obtain ⟨e1, e2⟩ := e
      cases h
      cases he
      exact List.mem_cons_self _ _
    · rw [dictGet, if_neg he] at h
      exact List.mem_cons_of_mem _ (ih h)

theorem dictSet_absent {V : Type} (m : List (PyStr × V)) (k : PyStr) (v : V)
    (h : dictGet k m = none) : dictSet m k v = m ++ [(k, v)] := by
  unfold dictSet
  rw [h]
  rfl

theorem dictGet_append_single {V : Type} (m : List (PyStr × V)) (k q : PyStr) (v : V) :
    dictGet q (m ++ [(k, v)]) =
      match dictGet q m with
      | some w => some w
      | none => if k = q then some v else none := by
  induction m with
  | nil => simp [dictGet]
  | cons e rest ih =>
    by_cases he : e.1 = q
    · simp [dictGet, he]
    · simp only [List.cons_append, dictGet, if_neg he]
      exact ih

theorem dictGet_map_overwrite_ne {V : Type} (m : List (PyStr × V)) (k q : PyStr) (v : V)
    (h : q ≠ k) :
    dictGet q (m.map fun e => if e.1 = k then (k, v) else e) = dictGet q m := by
  induction m with
  | nil => rfl
  | cons e rest ih =>
    by_cases he : e.1 = k
    · rw [List.map_cons, if_pos he, dictGet, dictGet,
        if_neg (fun hh : k = q => h hh.symm),
        if_neg (by rw [he]; exact fun hh => h hh.symm)]
      exact ih
    · rw [List.map_cons, if_neg he, dictGet, dictGet]
      by_cases hq : e.1 = q
      · rw [if_pos hq, if_pos hq]
      · rw [if_neg hq, if_neg hq]
        exact ih

theorem dictGet_map_overwrite_self {V : Type} (m : List (PyStr × V)) (k : PyStr) (v : V)
    (h : (dictGet k m).isSome = true) :
    dictGet k (m.map fun e => if e.1 = k then (k, v) else e) = some v := by
  induction m with
  | nil => rw [dictGet] at h; exact absurd h (by simp)
  | cons e rest ih =>
    by_cases he : e.1 = k
    · rw [List.map_cons, if_pos he, dictGet, if_pos rfl]
    · rw [List.map_cons, if_neg he, dictGet, if_neg he]
      rw [dictGet, if_neg he] at h
      exact ih h

theorem dictGet_dictSet_ne {V : Type} (m : List (PyStr × V)) (k q : PyStr) (v : V)
    (h : q ≠ k) : dictGet q (dictSet m k v) = dictGet q m := by
  unfold dictSet
  split
  · exact dictGet_map_overwrite_ne m k q v h
  · rw [dictGet_append_single]
    cases hm : dictGet q m with
    | some w => rfl
    | none => rw [if_neg (fun hh : k = q => h hh.symm)]

theorem dictGet_dictSet_self {V : Type} (m : List (PyStr × V)) (k : PyStr) (v : V) :
    dictGet k (dictSet m k v) = some v := by
  unfold dictSet
  split
  case isTrue h => exact dictGet_map_overwrite_self m k v h
  case isFalse h =>
    rw [dictGet_append_single, Option.not_isSome_iff_eq_none.mp h, if_pos rfl]

theorem dictSet_map_fst {V : Type} (m : List (PyStr × V)) (k : PyStr) (v : V) :
    (dictSet m k v).map Prod.fst =
      if (dictGet k m).isSome then m.map Prod.fst else m.map Prod.fst ++ [k] := by
  unfold dictSet
  split
  case isTrue h =>
    rw [List.map_map]
    apply List.map_congr_left
    intro e _
    by_cases he : e.1 = k <;> simp [he, Function.comp]
  case isFalse h => simp

theorem dictGet_isSome_iff {V : Type} (k : PyStr) (m : List (PyStr × V)) :
    (dictGet k m).isSome = true ↔ k ∈ m.map Prod.fst := by
  induction m with
  | nil =>
    constructor
    · intro h; rw [dictGet] at h; exact absurd h (by simp)
    · intro h; exact absurd h (List.not_mem_nil _)
  | cons e rest ih =>
    rw [List.map_cons]
    by_cases he : e.1 = k
    · rw [dictGet, if_pos he]
      constructor
      · intro _; exact he ▸ List.mem_cons_self _ _
      · intro _; rfl
    · rw [dictGet, if_neg he, List.mem_cons]
      constructor
      · intro h; exact Or.inr (ih.mp h)
      · intro h
        rcases h with h | h
        · exact absurd h.symm he
        · exact ih.mpr h

theorem mem_dictSet {V : Type} {e : PyStr × V} {m : List (PyStr × V)} {k : PyStr} {v : V}
    (h : e ∈ dictSet m k v) : e ∈ m ∨ e = (k, v) := by
  unfold dictSet at h
  split at h
  · rcases List.mem_map.mp h with ⟨e2, he2, heq⟩
    by_cases hk : e2.1 = k
    · rw [if_pos hk] at heq
      exact Or.inr heq.symm
    · rw [if_neg hk] at heq
      exact Or.inl (heq ▸ he2)
  · rcases List.mem_append.mp h with h2 | h2
    · exact Or.inl h2
    · simp at h2
      exact Or.inr h2

/-! ## The catalog's keys do not depend on the interpolated username -/

theorem platformsCatalog_map_fst (c : PyStr) :
    (platformsCatalog c).map Prod.fst = catalogNames := rfl

theorem platformsCatalog_length (c : PyStr) : (platformsCatalog c).length = 94 := rfl

theorem platformsCatalog_urls_nonempty (c : PyStr) :
    ∀ e ∈ platformsCatalog c, e.2 ≠ [] := by
  intro e he
  have hall : (platformsCatalog c).all (fun e => !e.2.isEmpty) = true := rfl
  have := List.all_eq_true.mp hall e he
  intro hnil
  rw [hnil] at this
  simp at this

/-! ## Prioritization depends only on the catalog's keys -/

theorem dictGet_isSome_congr {V W : Type} (k : PyStr) (m1 : List (PyStr × V))
    (m2 : List (PyStr × W)) (h : m1.map Prod.fst = m2.map Prod.fst) :
    (dictGet k m1).isSome = (dictGet k m2).isSome := by
  cases h1 : (dictGet k m1).isSome
  · cases h2 : (dictGet k m2).isSome
    · rfl
    · exact absurd (h ▸ (dictGet_isSome_iff k m2).mp h2) (fun hm =>
        by rw [(dictGet_isSome_iff k m1).mpr hm] at h1; cases h1)
  · exact ((dictGet_isSome_iff k m2).mpr (h ▸ (dictGet_isSome_iff k m1).mp h1)).symm

theorem prioritizeTop_map_fst_congr (ps qs : List (PyStr × PyStr))
    (h : ps.map Prod.fst = qs.map Prod.fst) :
    (prioritizeTop ps).map Prod.fst = (prioritizeTop qs).map Prod.fst := by
  unfold prioritizeTop
  suffices hgen : ∀ (l : List PyStr) (acc1 acc2 : List (PyStr × PyStr)),
      acc1.map Prod.fst = acc2.map Prod.fst →
      (l.foldl (fun acc p => match dictGet p ps with
        | some url => dictSet acc p url
        | none => acc) acc1).map Prod.fst
        = (l.foldl (fun acc p => match dictGet p qs with
            | some url => dictSet acc p url
            | none => acc) acc2).map Prod.fst by
    exact hgen top_platforms [] [] rfl
  intro l
  induction l with
  | nil => intro acc1 acc2 hacc; simpa using hacc
  | cons p l ih =>
    intro acc1 acc2 hacc
    rw [List.foldl_cons, List.foldl_cons]
    apply ih
    have hsome := dictGet_isSome_congr p ps qs h
    cases h1 : dictGet p ps with
    | none =>
      cases h2 : dictGet p qs with
      | none => exact hacc
      | some u2 => rw [h1, h2] at hsome; simp at hsome
    | some u1 =>
      cases h2 : dictGet p qs with
      | none => rw [h1, h2] at hsome; simp at hsome
      | some u2 =>
        rw [dictSet_map_fst, dictSet_map_fst, hacc,
          dictGet_isSome_congr p acc1 acc2 hacc]

theorem prioritizeFill_map_fst_congr (ps : List (PyStr × PyStr)) :
    ∀ (qs acc1 acc2 : List (PyStr × PyStr)),
    ps.map Prod.fst = qs.map Prod.fst → acc1.map Prod.fst = acc2.map Prod.fst →
    (ps.foldl prioritizeFillStep acc1).map Prod.fst
      = (qs.foldl prioritizeFillStep acc2).map Prod.fst := by
  induction ps with
  | nil =>
    intro qs acc1 acc2 h hacc
    have hq : qs = [] := List.map_eq_nil_iff.mp h.symm
    subst hq
    simpa using hacc
  | cons e ps ih =>
    intro qs acc1 acc2 h hacc
    cases qs with
    | nil => simp at h
    | cons e2 qs2 =>
      rw [List.map_cons, List.map_cons] at h
      injection h with hk hps
      rw [List.foldl_cons, List.foldl_cons]
      apply ih qs2 _ _ hps
      have hl : acc1.length = acc2.length := by
        have h2 := congrArg List.length hacc
        simpa using h2
      unfold prioritizeFillStep
      by_cases hc : (dictGet e.1 acc1).isSome = false ∧ acc1.length < MAX_PLATFORMS
      · have hc2 : (dictGet e2.1 acc2).isSome = false ∧ acc2.length < MAX_PLATFORMS := by
          constructor
          · rw [← hk, ← dictGet_isSome_congr e.1 acc1 acc2 hacc]
            exact hc.1
          · rw [← hl]
            exact hc.2
        rw [if_pos hc, if_pos hc2]
        simp [hacc, hk]
      · have hc2 : ¬((dictGet e2.1 acc2).isSome = false ∧ acc2.length < MAX_PLATFORMS) := by
          intro hcc
          apply hc
          constructor
          · rw [dictGet_isSome_congr e.1 acc1 acc2 hacc, hk]
            exact hcc.1
          · rw [hl]
            exact hcc.2
        rw [if_neg hc, if_neg hc2]
        exact hacc

theorem prioritizedPlatforms_map_fst_congr (ps qs : List (PyStr × PyStr))
    (h : ps.map Prod.fst = qs.map Prod.fst) :
    (prioritizedPlatforms ps).map Prod.fst = (prioritizedPlatforms qs).map Prod.fst := by
  unfold prioritizedPlatforms
  dsimp only
  have htop := prioritizeTop_map_fst_congr ps qs h
  have hlen : (prioritizeTop ps).length = (prioritizeTop qs).length := by
    have h2 := congrArg List.length htop
    simpa using h2
  rw [← hlen]
  by_cases hc : 0 < MAX_PLATFORMS - (prioritizeTop ps).length
  · rw [if_pos hc, if_pos hc]
    exact prioritizeFill_map_fst_congr ps qs _ _ h htop
  · rw [if_neg hc, if_neg hc]
    exact htop

theorem prioritized_catalog_map_fst (c : PyStr) :
    (prioritizedPlatforms (platformsCatalog c)).map Prod.fst = prioritizedNames :=
  prioritizedPlatforms_map_fst_congr _ _
    ((platformsCatalog_map_fst c).trans (platformsCatalog_map_fst []).symm)

theorem prioritized_catalog_length (c : PyStr) :
    (prioritizedPlatforms (platformsCatalog c)).length = MAX_PLATFORMS := by
  have h := congrArg List.length (prioritized_catalog_map_fst c)
  rw [List.length_map] at h
  rw [h]
  decide

/-! ## The prioritized list selects catalog entries, with distinct names -/

theorem prioritizeTop_sub (ps : List (PyStr × PyStr)) :
    ∀ e ∈ prioritizeTop ps, e ∈ ps := by
  unfold prioritizeTop
  suffices hgen : ∀ (l : List PyStr) (acc : List (PyStr × PyStr)),
      (∀ e ∈ acc, e ∈ ps) →
      ∀ e ∈ l.foldl (fun acc p => match dictGet p ps with
        | some url => dictSet acc p url
        | none => acc) acc, e ∈ ps by
    exact hgen top_platforms [] (by simp)
  intro l
  induction l with
  | nil => intro acc hacc; simpa using hacc
  | cons p l ih =>
    intro acc hacc
    rw [List.foldl_cons]
    apply ih
    intro e he
    cases hd : dictGet p ps with
    | none => rw [hd] at he; exact hacc e he
    | some url =>
      rw [hd] at he
      rcases mem_dictSet he with h1 | h1
      · exact hacc e h1
      · subst h1; exact dictGet_mem hd

theorem prioritizeFill_sub (ps : List (PyStr × PyStr)) :
    ∀ (l acc : List (PyStr × PyStr)), (∀ e ∈ acc, e ∈ ps) → (∀ e ∈ l, e ∈ ps) →
    ∀ e ∈ l.foldl prioritizeFillStep acc, e ∈ ps := by
  intro l
  induction l with
  | nil => intro acc hacc _; simpa using hacc
  | cons f l ih =>
    intro acc hacc hl
    rw [List.foldl_cons]
    apply ih
    · intro e he
      unfold prioritizeFillStep at he
      split at he
      · rcases List.mem_append.mp he with h1 | h1
        · exact hacc e h1
        · simp at h1; subst h1; exact hl _ (List.mem_cons_self _ _)
      · exact hacc e he
    · intro e he; exact hl e (List.mem_cons_of_mem _ he)

theorem prioritized_sub (ps : List (PyStr × PyStr)) :
    ∀ e ∈ prioritizedPlatforms ps, e ∈ ps := by
  unfold prioritizedPlatforms
  dsimp only
  split
  · exact prioritizeFill_sub ps ps (prioritizeTop ps) (prioritizeTop_sub ps) (fun e he => he)
  · exact prioritizeTop_sub ps

theorem prioritizeTop_nodup (ps : List (PyStr × PyStr)) :
    ((prioritizeTop ps).map Prod.fst).Nodup := by
  unfold prioritizeTop
  suffices hgen : ∀ (l : List PyStr) (acc : List (PyStr × PyStr)),
      (acc.map Prod.fst).Nodup →
      ((l.foldl (fun acc p => match dictGet p ps with
        | some url => dictSet acc p url
        | none => acc) acc).map Prod.fst).Nodup by
    exact hgen top_platforms [] (by simp)
  intro l
  induction l with
  | nil => intro acc hacc; simpa using hacc
  | cons p l ih =>
    intro acc hacc
    rw [List.foldl_cons]
    apply ih
    cases hd : dictGet p ps with
    | none => exact hacc
    | some url =>
      rw [dictSet_map_fst]
      split
      · exact hacc
      case isFalse h2 =>
        have hp : p ∉ acc.map Prod.fst := fun hm => h2 ((dictGet_isSome_iff p acc).mpr hm)
        simp [List.nodup_append, hacc, hp]

theorem prioritizeFill_nodup :
    ∀ (l acc : List (PyStr × PyStr)), (acc.map Prod.fst).Nodup →
    ((l.foldl prioritizeFillStep acc).map Prod.fst).Nodup := by
  intro l
  induction l with
  | nil => intro acc hacc; simpa using hacc
  | cons f l ih =>
    intro acc hacc
    rw [List.foldl_cons]
    apply ih
    unfold prioritizeFillStep
    split
    case isTrue hcond =>
      have hp : f.1 ∉ acc.map Prod.fst := fun hm => by
        rw [(dictGet_isSome_iff f.1 acc).mpr hm] at hcond
        exact absurd hcond.1 (by simp)
      simp [List.nodup_append, hacc, hp]
    case isFalse hcond => exact hacc

theorem prioritized_nodup (ps : List (PyStr × PyStr)) :
    ((prioritizedPlatforms ps).map Prod.fst).Nodup := by
  unfold prioritizedPlatforms
  dsimp only
  split
  · exact prioritizeFill_nodup ps (prioritizeTop ps) (prioritizeTop_nodup ps)
  · exact prioritizeTop_nodup ps

/-! ## Prober-level shape lemmas -/

theorem tryLoop_shape (platform : PyStr) (http : Http) :
    ∀ (vars : List PyStr) (results : List (PyStr × Option PyStr))
      (pstats : List (PyStr × PlatformStat)),
    ((tryVariationsLoop platform http vars results pstats).found = false ∧
     (tryVariationsLoop platform http vars results pstats).results = results ∧
     (tryVariationsLoop platform http vars results pstats).platform_stats = pstats) ∨
    ((tryVariationsLoop platform http vars results pstats).found = true ∧
     ∃ u st, u ≠ [] ∧
       (tryVariationsLoop platform http vars results pstats).results
         = dictSet results platform (some u) ∧
       (tryVariationsLoop platform http vars results pstats).platform_stats
         = dictSet pstats platform st) := by
  intro vars
  induction vars with
  | nil => intro results pstats; exact Or.inl ⟨rfl, rfl, rfl⟩
  | cons var rest ih =>
    intro results pstats
    simp only [tryVariationsLoop]
    split
    · exact ih results pstats
    case isFalse hne =>
      split
      case h_1 status finalUrl body rt =>
        split
        case isTrue hpe =>
          exact Or.inr ⟨rfl, _, _, hne, rfl, rfl⟩
        case isFalse hpe =>
          rcases ih results pstats with ⟨h1, h2, h3⟩ | ⟨h1, u, st, hu, h2, h3⟩
          · exact Or.inl ⟨h1, h2, h3⟩
          · exact Or.inr ⟨h1, u, st, hu, h2, h3⟩
      case h_2 =>
        rcases ih results pstats with ⟨h1, h2, h3⟩ | ⟨h1, u, st, hu, h2, h3⟩
        · exact Or.inl ⟨h1, h2, h3⟩
        · exact Or.inr ⟨h1, u, st, hu, h2, h3⟩
      case h_3 msg rt =>
        rcases ih results pstats with ⟨h1, h2, h3⟩ | ⟨h1, u, st, hu, h2, h3⟩
        · exact Or.inl ⟨h1, h2, h3⟩
        · exact Or.inr ⟨h1, u, st, hu, h2, h3⟩

theorem check_platform_shape (username platform url : PyStr) (variations : List PyStr)
    (results : List (PyStr × Option PyStr)) (pstats : List (PyStr × PlatformStat))
    (http : Http) (hurl : url ≠ []) :
    ∃ (v : Option PyStr) (st : PlatformStat),
      (check_platform username platform url variations results pstats http).results
        = dictSet results platform v ∧
      dictGet platform
          (check_platform username platform url variations results pstats http).platform_stats
        = some st ∧
      (∀ q, q ≠ platform →
        dictGet q (check_platform username platform url variations results pstats http).platform_stats
          = dictGet q pstats) ∧
      (check_platform username platform url variations results pstats http).requests.head?
        = some url ∧
      (v = none ∨ ∃ u, v = some u ∧ u ≠ []) := by
  unfold check_platform
  cases hh : http url with
  | ok status finalUrl body rt =>
    dsimp only
    split
    case isTrue hpe =>
      refine ⟨some url, _, rfl, dictGet_dictSet_self _ _ _, ?_, rfl, Or.inr ⟨url, rfl, hurl⟩⟩
      intro q hq
      exact dictGet_dictSet_ne _ _ _ _ hq
    case isFalse hpe =>
      rw [try_username_variations]
      rcases tryLoop_shape platform http (variations.drop 1) results
          (dictSet pstats platform
            ⟨rt, .code status, some finalUrl, some body,
             some (profileExists error_indicators platform status finalUrl body),
             some username, none⟩) with ⟨h1, h2, h3⟩ | ⟨h1, u, st, hu, h2, h3⟩
      · rw [h1, if_neg Bool.false_ne_true]
        refine ⟨none, _, by rw [h2], by rw [h3]; exact dictGet_dictSet_self _ _ _, ?_, rfl,
          Or.inl rfl⟩
        intro q hq
        rw [h3]
        exact dictGet_dictSet_ne _ _ _ _ hq
      · rw [h1, if_pos rfl]
        refine ⟨some u, st, h2, by rw [h3]; exact dictGet_dictSet_self _ _ _, ?_, rfl,
          Or.inr ⟨u, rfl, hu⟩⟩
        intro q hq
        rw [h3, dictGet_dictSet_ne _ _ _ _ hq, dictGet_dictSet_ne _ _ _ _ hq]
  | timeout =>
    refine ⟨none, _, rfl, dictGet_dictSet_self _ _ _, ?_, rfl, Or.inl rfl⟩
    intro q hq
    exact dictGet_dictSet_ne _ _ _ _ hq
  | connError msg rt =>
    refine ⟨none, _, rfl, dictGet_dictSet_self _ _ _, ?_, rfl, Or.inl rfl⟩
    intro q hq
    exact dictGet_dictSet_ne _ _ _ _ hq

/-- On a timed-out primary request `check_platform` writes exactly the
`{response_time: TIMEOUT_SECONDS, status_code: 'timeout'}` stat, a `None`
result, and issues only the primary request. -/
theorem check_platform_timeout (username platform url : PyStr) (variations : List PyStr)
    (results : List (PyStr × Option PyStr)) (pstats : List (PyStr × PlatformStat))
    (http : Http) (h : http url = HttpResult.timeout) :
    check_platform username platform url variations results pstats http
      = ⟨dictSet results platform none,
         dictSet pstats platform ⟨TIMEOUT_SECONDS, .timeout, none, none, none, none, none⟩,
         false, [url]⟩ := by
  unfold check_platform
  rw [h]

/-! ## Orchestrator fold lemmas -/

theorem runPlatforms_map_fst (clean : PyStr) (vars : List PyStr) (http : Http) :
    ∀ (ps : List (PyStr × PyStr)) (results : List (PyStr × Option PyStr))
      (pstats : List (PyStr × PlatformStat)),
    (∀ e ∈ ps, e.2 ≠ []) → (∀ e ∈ ps, dictGet e.1 results = none) →
    (ps.map Prod.fst).Nodup →
    (runPlatforms clean vars http ps results pstats).results.map Prod.fst
      = results.map Prod.fst ++ ps.map Prod.fst := by
  intro ps
  induction ps with
  | nil => intro results pstats _ _ _; simp [runPlatforms]
  | cons e rest ih =>
    intro results pstats hurls hfresh hnodup
    obtain ⟨v, st, hres, hst, hframe, hhead, hv⟩ :=
      check_platform_shape clean e.1 e.2 vars results pstats http
        (hurls e (List.mem_cons_self _ _))
    have hkeys : e.1 ∉ rest.map Prod.fst := by
      rw [List.map_cons, List.nodup_cons] at hnodup
      exact hnodup.1
    have hstep := ih (check_platform clean e.1 e.2 vars results pstats http).results
      (check_platform clean e.1 e.2 vars results pstats http).platform_stats
      (fun q hq => hurls q (List.mem_cons_of_mem _ hq))
      (fun q hq => by
        rw [hres, dictGet_dictSet_ne _ _ _ _
          (fun hqe => hkeys (by rw [← hqe]; exact List.mem_map_of_mem Prod.fst hq))]
        exact hfresh q (List.mem_cons_of_mem _ hq))
      (by rw [List.map_cons, List.nodup_cons] at hnodup; exact hnodup.2)
    simp only [runPlatforms]
    rw [hstep, hres, dictSet_map_fst,
      if_neg (by rw [hfresh e (List.mem_cons_self _ _)]; simp)]
    simp

theorem runPlatforms_values (clean : PyStr) (vars : List PyStr) (http : Http) :
    ∀ (ps : List (PyStr × PyStr)) (results : List (PyStr × Option PyStr))
      (pstats : List (PyStr × PlatformStat)),
    (∀ e ∈ ps, e.2 ≠ []) →
    (∀ e ∈ results, ∀ u, e.2 = some u → u ≠ []) →
    ∀ e ∈ (runPlatforms clean vars http ps results pstats).results,
      ∀ u, e.2 = some u → u ≠ [] := by
  intro ps
  induction ps with
  | nil => intro results pstats _ hinv; simpa [runPlatforms] using hinv
  | cons e rest ih =>
    intro results pstats hurls hinv
    obtain ⟨v, st, hres, hst, hframe, hhead, hv⟩ :=
      check_platform_shape clean e.1 e.2 vars results pstats http
        (hurls e (List.mem_cons_self _ _))
    simp only [runPlatforms]
    apply ih
    · exact fun q hq => hurls q (List.mem_cons_of_mem _ hq)
    · intro e2 he2 u hu
      rw [hres] at he2
      rcases mem_dictSet he2 with h1 | h1
      · exact hinv e2 h1 u hu
      · subst h1
        simp only at hu
        rcases hv with h2 | ⟨u2, h2, hu2⟩
        · rw [h2] at hu; cases hu
        · rw [h2] at hu; cases hu; exact hu2

theorem runPlatforms_frame (clean : PyStr) (vars : List PyStr) (http : Http) :
    ∀ (ps : List (PyStr × PyStr)) (results : List (PyStr × Option PyStr))
      (pstats : List (PyStr × PlatformStat)) (q : PyStr),
    (∀ e ∈ ps, e.2 ≠ []) → q ∉ ps.map Prod.fst →
    dictGet q (runPlatforms clean vars http ps results pstats).results = dictGet q results ∧
    dictGet q (runPlatforms clean vars http ps results pstats).platform_stats
      = dictGet q pstats := by
  intro ps
  induction ps with
  | nil => intro results pstats q _ _; exact ⟨rfl, rfl⟩
  | cons e rest ih =>
    intro results pstats q hurls hq
    have hqe : q ≠ e.1 := by
      intro hh; exact hq (by rw [List.map_cons, hh]; exact List.mem_cons_self _ _)
    have hqrest : q ∉ rest.map Prod.fst := by
      intro hh; exact hq (by rw [List.map_cons]; exact List.mem_cons_of_mem _ hh)
    obtain ⟨v, st, hres, hst, hframe, hhead, hv⟩ :=
      check_platform_shape clean e.1 e.2 vars results pstats http
        (hurls e (List.mem_cons_self _ _))
    simp only [runPlatforms]
    obtain ⟨ih1, ih2⟩ := ih (check_platform clean e.1 e.2 vars results pstats http).results
      (check_platform clean e.1 e.2 vars results pstats http).platform_stats q
      (fun p hp => hurls p (List.mem_cons_of_mem _ hp)) hqrest
    constructor
    · rw [ih1, hres, dictGet_dictSet_ne _ _ _ _ hqe]
    · rw [ih2, hframe q hqe]

theorem runPlatforms_reqlog_fst (clean : PyStr) (vars : List PyStr) (http : Http) :
    ∀ (ps : List (PyStr × PyStr)) (results : List (PyStr × Option PyStr))
      (pstats : List (PyStr × PlatformStat)),
    ∀ e ∈ (runPlatforms clean vars http ps results pstats).reqlog, e.1 ∈ ps.map Prod.fst := by
  intro ps
  induction ps with
  | nil => intro results pstats e he; exact absurd he (List.not_mem_nil _)
  | cons p rest ih =>
    intro results pstats e he
    simp only [runPlatforms] at he
    rcases List.mem_append.mp he with h1 | h1
    · rcases List.mem_map.mp h1 with ⟨u, _, hu⟩
      rw [List.map_cons, ← hu]
      exact List.mem_cons_self _ _
    · rw [List.map_cons]
      exact List.mem_cons_of_mem _ (ih _ _ e h1)

theorem runPlatforms_reqlog_cover (clean : PyStr) (vars : List PyStr) (http : Http) :
    ∀ (ps : List (PyStr × PyStr)) (results : List (PyStr × Option PyStr))
      (pstats : List (PyStr × PlatformStat)),
    (∀ e ∈ ps, e.2 ≠ []) →
    ∀ e ∈ ps, (e.1, e.2) ∈ (runPlatforms clean vars http ps results pstats).reqlog := by
  intro ps
  induction ps with
  | nil => intro results pstats _ e he; exact absurd he (List.not_mem_nil _)
  | cons p rest ih =>
    intro results pstats hurls e he
    simp only [runPlatforms]
    rcases List.mem_cons.mp he with rfl | h1
    · apply List.mem_append_left
      obtain ⟨v, st, hres, hst, hframe, hhead, hv⟩ :=
        check_platform_shape clean e.1 e.2 vars results pstats http
          (hurls e (List.mem_cons_self _ _))
      cases hreq : (check_platform clean e.1 e.2 vars results pstats http).requests with
      | nil => rw [hreq] at hhead; cases hhead
      | cons r rs =>
        rw [hreq] at hhead
        have : r = e.2 := by
          simp only [List.head?] at hhead
          cases hhead
          rfl
        rw [List.map_cons, this]
        exact List.mem_cons_self _ _
    · exact List.mem_append_right _ (ih _ _
        (fun q hq => hurls q (List.mem_cons_of_mem _ hq)) e h1)

theorem runPlatforms_timeout (clean : PyStr) (vars : List PyStr) (http : Http) :
    ∀ (ps : List (PyStr × PyStr)) (results : List (PyStr × Option PyStr))
      (pstats : List (PyStr × PlatformStat)) (platform url : PyStr),
    (∀ e ∈ ps, e.2 ≠ []) → (ps.map Prod.fst).Nodup → (platform, url) ∈ ps →
    http url = HttpResult.timeout →
    dictGet platform (runPlatforms clean vars http ps results pstats).platform_stats
      = some ⟨TIMEOUT_SECONDS, .timeout, none, none, none, none, none⟩ ∧
    dictGet platform (runPlatforms clean vars http ps results pstats).results = some none ∧
    ((runPlatforms clean vars http ps results pstats).reqlog.filter
        (fun e => decide (e.1 = platform))).map Prod.snd = [url] := by
  intro ps
  induction ps with
  | nil => intro results pstats platform url _ _ hmem _; exact absurd hmem (List.not_mem_nil _)
  | cons e rest ih =>
    intro results pstats platform url hurls hnodup hmem htmo
    rcases List.mem_cons.mp hmem with heq | hmem2
    · subst heq
      have hpnotin : platform ∉ rest.map Prod.fst := by
        rw [List.map_cons, List.nodup_cons] at hnodup
        exact hnodup.1
      simp only [runPlatforms]
      rw [check_platform_timeout clean platform url vars results pstats http htmo]
      obtain ⟨hf1, hf2⟩ := runPlatforms_frame clean vars http rest _ _ platform
        (fun q hq => hurls q (List.mem_cons_of_mem _ hq)) hpnotin
      refine ⟨by rw [hf2, dictGet_dictSet_self], by rw [hf1, dictGet_dictSet_self], ?_⟩
      rw [List.filter_append]
      have hrest : (runPlatforms clean vars http rest (dictSet results platform none)
          (dictSet pstats platform
            ⟨TIMEOUT_SECONDS, .timeout, none, none, none, none, none⟩)).reqlog.filter
          (fun e2 => decide (e2.1 = platform)) = [] := by
        rw [List.filter_eq_nil_iff]
        intro a ha
        have hfst := runPlatforms_reqlog_fst clean vars http rest _ _ a ha
        simp only [decide_eq_true_eq]
        intro hha
        rw [hha] at hfst
        exact hpnotin hfst
      rw [hrest]
      simp
    · have hne : e.1 ≠ platform := by
        rw [List.map_cons, List.nodup_cons] at hnodup
        intro hh
        exact hnodup.1 (hh ▸ List.mem_map_of_mem Prod.fst hmem2)
      simp only [runPlatforms]
      obtain ⟨h1, h2, h3⟩ := ih
        (check_platform clean e.1 e.2 vars results pstats http).results
        (check_platform clean e.1 e.2 vars results pstats http).platform_stats platform url
        (fun q hq => hurls q (List.mem_cons_of_mem _ hq))
        (by rw [List.map_cons, List.nodup_cons] at hnodup; exact hnodup.2) hmem2 htmo
      refine ⟨h1, h2, ?_⟩
      rw [List.filter_append]
      have htag : (((check_platform clean e.1 e.2 vars results pstats http).requests.map
          (fun q => (e.1, q))).filter (fun e2 => decide (e2.1 = platform))) = [] := by
        rw [List.filter_eq_nil_iff]
        intro a ha
        rcases List.mem_map.mp ha with ⟨q, _, hq⟩
        simp only [decide_eq_true_eq]
        intro hha
        rw [← hq] at hha
        exact hne hha
      rw [htag, List.nil_append]
      exact h3

/-! ## Unfolding `check_social_media` to the orchestrating fold -/

theorem check_social_media_eq (username : PyStr) (http : Http) :
    check_social_media username http =
      ⟨(runPlatforms (cleanVar username) (generate_username_variations username) http
          (prioritizedPlatforms (platformsCatalog (cleanVar username))) [] []).results.filterMap
          (fun e => match e.2 with
            | some u => if u ≠ [] then some (e.1, u) else none
            | none => none),
       ⟨username, (platformsCatalog (cleanVar username)).length,
        (runPlatforms (cleanVar username) (generate_username_variations username) http
          (prioritizedPlatforms (platformsCatalog (cleanVar username))) [] []).results.countP (fun e => e.2.isSome),
        (runPlatforms (cleanVar username) (generate_username_variations username) http
          (prioritizedPlatforms (platformsCatalog (cleanVar username))) [] []).platform_stats.countP
          (fun e => e.2.status_code == PyStatus.timeout),
        (runPlatforms (cleanVar username) (generate_username_variations username) http
          (prioritizedPlatforms (platformsCatalog (cleanVar username))) [] []).platform_stats.countP
          (fun e => e.2.status_code == PyStatus.error),
        generate_username_variations username⟩,
       (runPlatforms (cleanVar username) (generate_username_variations username) http
          (prioritizedPlatforms (platformsCatalog (cleanVar username))) [] []).results,
       (runPlatforms (cleanVar username) (generate_username_variations username) http
          (prioritizedPlatforms (platformsCatalog (cleanVar username))) [] []).platform_stats,
       (runPlatforms (cleanVar username) (generate_username_variations username) http
          (prioritizedPlatforms (platformsCatalog (cleanVar username))) [] []).reqlog⟩ := rfl

theorem csm_results (username : PyStr) (http : Http) :
    (check_social_media username http).results
      = (runPlatforms (cleanVar username) (generate_username_variations username) http
          (prioritizedPlatforms (platformsCatalog (cleanVar username))) [] []).results := by
  rw [check_social_media_eq]

theorem csm_pstats (username : PyStr) (http : Http) :
    (check_social_media username http).platform_stats
      = (runPlatforms (cleanVar username) (generate_username_variations username) http
          (prioritizedPlatforms (platformsCatalog (cleanVar username))) [] []).platform_stats := by
  rw [check_social_media_eq]

theorem csm_reqlog (username : PyStr) (http : Http) :
    (check_social_media username http).reqlog
      = (runPlatforms (cleanVar username) (generate_username_variations username) http
          (prioritizedPlatforms (platformsCatalog (cleanVar username))) [] []).reqlog := by
  rw [check_social_media_eq]

theorem csm_platforms_checked (username : PyStr) (http : Http) :
    (check_social_media username http).stats.platforms_checked
      = (platformsCatalog (cleanVar username)).length := by
  rw [check_social_media_eq]

theorem csm_timeouts (username : PyStr) (http : Http) :
    (check_social_media username http).stats.timeouts
      = (runPlatforms (cleanVar username) (generate_username_variations username) http
          (prioritizedPlatforms (platformsCatalog (cleanVar username))) [] []).platform_stats.countP
          (fun e => e.2.status_code == PyStatus.timeout) := by
  rw [check_social_media_eq]

theorem csm_profiles_found (username : PyStr) (http : Http) :
    (check_social_media username http).stats.profiles_found
      = (runPlatforms (cleanVar username) (generate_username_variations username) http
          (prioritizedPlatforms (platformsCatalog (cleanVar username))) [] []).results.countP (fun e => e.2.isSome) := by
  rw [check_social_media_eq]

theorem csm_found_profiles (username : PyStr) (http : Http) :
    (check_social_media username http).found_profiles
      = (runPlatforms (cleanVar username) (generate_username_variations username) http
          (prioritizedPlatforms (platformsCatalog (cleanVar username))) [] []).results.filterMap
          (fun e => match e.2 with
            | some u => if u ≠ [] then some (e.1, u) else none
            | none => none) := by
  rw [check_social_media_eq]

theorem prioritized_catalog_urls_nonempty (c : PyStr) :
    ∀ e ∈ prioritizedPlatforms (platformsCatalog c), e.2 ≠ [] :=
  fun e he => platformsCatalog_urls_nonempty c e (prioritized_sub _ e he)

/-! # Claim C1 -/

/-- C1 as stated is false: the catalog built for the run has 94 platforms, but
only the 40 prioritized ones are probed and receive any outcome — e.g. for
username `"john"` the catalog platform `"Mastodon"` is silently dropped: it has
no entry in the internal results dict nor in the returned `found_profiles`
mapping. -/
theorem C1_counterexample :
    (dictGet "Mastodon".data (platformsCatalog (cleanVar "john".data))).isSome = true ∧
    dictGet "Mastodon".data (check_social_media "john".data timeoutOracle).results = none ∧
    dictGet "Mastodon".data (check_social_media "john".data timeoutOracle).found_profiles
      = none ∧
    (check_social_media "john".data timeoutOracle).stats.platforms_checked = 94 ∧
    (check_social_media "john".data timeoutOracle).results.length = 40 := by decide

/-- C1 amended: after the run, the internal results dict holds exactly one
outcome for every *prioritized* platform (the at-most-`MAX_PLATFORMS` subset
actually probed), each exactly once and none dropped; catalog platforms beyond
the cap receive no outcome. -/
theorem C1_amended (username : PyStr) (http : Http) :
    (check_social_media username http).results.map Prod.fst
      = (prioritizedPlatforms (platformsCatalog (cleanVar username))).map Prod.fst ∧
    ((check_social_media username http).results.map Prod.fst).Nodup := by
  have h := runPlatforms_map_fst (cleanVar username) (generate_username_variations username)
    http (prioritizedPlatforms (platformsCatalog (cleanVar username))) [] []
    (prioritized_catalog_urls_nonempty _) (fun e _ => rfl) (prioritized_nodup _)
  have h1 : (check_social_media username http).results.map Prod.fst
      = (prioritizedPlatforms (platformsCatalog (cleanVar username))).map Prod.fst := by
    rw [csm_results, h]
    exact List.nil_append _
  exact ⟨h1, by rw [h1]; exact prioritized_nodup _⟩

/-! # Claim C4 -/

/-- C4 as stated is false: `check_social_media` performs no username validation,
so a run with the empty username issues an HTTP probe for each of the 40
prioritized platforms (e.g. `https://www.instagram.com//`) and produces their
outcomes instead of failing fast. -/
theorem C4_counterexample :
    (check_social_media "".data timeoutOracle).reqlog.length = 40 ∧
    (check_social_media "".data timeoutOracle).results.length = 40 ∧
    ("Instagram".data, "https://www.instagram.com//".data)
      ∈ (check_social_media "".data timeoutOracle).reqlog := by decide

/-- C4 amended: called with the empty username, `check_social_media` does not
fail: it builds the full 94-entry catalog with the empty cleaned username
interpolated and, for every network behavior, still issues the primary probe of
each prioritized platform (witnessed here by Instagram's
`https://www.instagram.com//`); any fail-fast rejection of empty usernames
lives in the excluded web layer, not in the orchestrator. -/
theorem C4_amended (http : Http) :
    (check_social_media "".data http).stats.platforms_checked = 94 ∧
    ("Instagram".data, "https://www.instagram.com//".data)
      ∈ (check_social_media "".data http).reqlog := by
  constructor
  · rw [csm_platforms_checked]
    exact platformsCatalog_length _
  · rw [csm_reqlog]
    have hmem : (("Instagram".data : PyStr), ("https://www.instagram.com//".data : PyStr))
        ∈ prioritizedPlatforms (platformsCatalog (cleanVar "".data)) := by decide
    exact runPlatforms_reqlog_cover _ _ http _ [] []
      (prioritized_catalog_urls_nonempty _) _ hmem

/-! # Claim C5 -/

/-- C5 as stated is false only in its final clause: a platform whose primary
request times out does get the Timeout outcome with `response_time` equal to
`TIMEOUT_SECONDS` and is counted in `stats.timeouts`, but the run does NOT
produce outcomes for all other platforms of the catalog — e.g. `"Mastodon"` is
in the catalog yet gets no outcome (only the 40 prioritized platforms do). -/
theorem C5_counterexample :
    dictGet "Instagram".data (check_social_media "john".data timeoutOracle).platform_stats
      = some ⟨TIMEOUT_SECONDS, PyStatus.timeout, none, none, none, none, none⟩ ∧
    0 < (check_social_media "john".data timeoutOracle).stats.timeouts ∧
    (dictGet "Mastodon".data (platformsCatalog (cleanVar "john".data))).isSome = true ∧
    dictGet "Mastodon".data (check_social_media "john".data timeoutOracle).results
      = none := by decide

/-- C5 amended: when the primary request of a probed (prioritized) platform
times out, its stat entry is exactly `{response_time: TIMEOUT_SECONDS,
status_code: 'timeout'}`, its result is `None`, the only request ever issued
for that platform is the primary URL (no username variations are tried), the
run's `timeouts` counter is positive, and every *probed* platform still gets an
outcome. -/
theorem C5_amended (username : PyStr) (http : Http) (platform url : PyStr)
    (hmem : (platform, url) ∈ prioritizedPlatforms (platformsCatalog (cleanVar username)))
    (htmo : http url = HttpResult.timeout) :
    dictGet platform (check_social_media username http).platform_stats
      = some ⟨TIMEOUT_SECONDS, PyStatus.timeout, none, none, none, none, none⟩ ∧
    dictGet platform (check_social_media username http).results = some none ∧
    ((check_social_media username http).reqlog.filter
        (fun e => decide (e.1 = platform))).map Prod.snd = [url] ∧
    0 < (check_social_media username http).stats.timeouts ∧
    ∀ q ∈ (prioritizedPlatforms (platformsCatalog (cleanVar username))).map Prod.fst,
      (dictGet q (check_social_media username http).results).isSome = true := by
  obtain ⟨h1, h2, h3⟩ := runPlatforms_timeout (cleanVar username)
    (generate_username_variations username) http
    (prioritizedPlatforms (platformsCatalog (cleanVar username))) [] [] platform url
    (prioritized_catalog_urls_nonempty _) (prioritized_nodup _) hmem htmo
  refine ⟨by rw [csm_pstats]; exact h1, by rw [csm_results]; exact h2,
    by rw [csm_reqlog]; exact h3, ?_, ?_⟩
  · rw [csm_timeouts]
    rw [List.countP_pos_iff]
    exact ⟨(platform, ⟨TIMEOUT_SECONDS, PyStatus.timeout, none, none, none, none, none⟩),
      dictGet_mem h1, rfl⟩
  · intro q hq
    rw [csm_results, dictGet_isSome_iff]
    rw [runPlatforms_map_fst (cleanVar username) (generate_username_variations username) http
      (prioritizedPlatforms (platformsCatalog (cleanVar username))) [] []
      (prioritized_catalog_urls_nonempty _) (fun e _ => rfl) (prioritized_nodup _)]
    exact List.mem_append_right _ hq

/-- Witness for `C5_amended`: username `"john"`, an oracle timing out on every
request, and the probed platform Instagram. -/
theorem C5_amended_witness :
    dictGet "Instagram".data (check_social_media "john".data timeoutOracle).platform_stats
      = some ⟨TIMEOUT_SECONDS, PyStatus.timeout, none, none, none, none, none⟩ ∧
    ((check_social_media "john".data timeoutOracle).reqlog.filter
        (fun e => decide (e.1 = "Instagram".data))).map Prod.snd
      = ["https://www.instagram.com/john/".data] ∧
    0 < (check_social_media "john".data timeoutOracle).stats.timeouts :=
  ⟨(C5_amended "john".data timeoutOracle "Instagram".data
      "https://www.instagram.com/john/".data (by decide) rfl).1,
   (C5_amended "john".data timeoutOracle "Instagram".data
      "https://www.instagram.com/john/".data (by decide) rfl).2.2.1,
   (C5_amended "john".data timeoutOracle "Instagram".data
      "https://www.instagram.com/john/".data (by decide) rfl).2.2.2.1⟩

/-! # Claim C6 -/

theorem countP_isSome_eq_filterMap_length :
    ∀ l : List (PyStr × Option PyStr),
    (∀ e ∈ l, ∀ u, e.2 = some u → u ≠ []) →
    l.countP (fun e => e.2.isSome)
      = (l.filterMap (fun e => match e.2 with
          | some u => if u ≠ [] then some (e.1, u) else none
          | none => none)).length := by
  intro l
  induction l with
  | nil => intro _; rfl
  | cons e rest ih =>
    intro hinv
    have htail := ih (fun q hq => hinv q (List.mem_cons_of_mem _ hq))
    cases he : e.2 with
    | none =>
      rw [List.countP_cons, List.filterMap_cons]
      simp [he, htail]
    | some u =>
      have hu : u ≠ [] := hinv e (List.mem_cons_self _ _) u he
      rw [List.countP_cons, List.filterMap_cons]
      simp [he, hu, htail]

/-- C6: `stats.profiles_found` equals both the number of non-`None` outcomes in
the results dict and the number of entries of the returned `found_profiles`
mapping. -/
theorem C6_profiles_found (username : PyStr) (http : Http) :
    (check_social_media username http).stats.profiles_found
      = (check_social_media username http).results.countP (fun e => e.2.isSome) ∧
    (check_social_media username http).stats.profiles_found
      = (check_social_media username http).found_profiles.length := by
  constructor
  · rw [csm_profiles_found, csm_results]
  · rw [csm_profiles_found, csm_found_profiles]
    exact countP_isSome_eq_filterMap_length _
      (runPlatforms_values _ _ http _ [] [] (prioritized_catalog_urls_nonempty _)
        (fun e he => absurd he (List.not_mem_nil _)))

/-! # Claim C10 -/

/-- C10: `platforms_checked` reports the size of the full 94-entry catalog even
though exactly the `MAX_PLATFORMS = 40` prioritized platforms are probed (each
issues at least its primary request, and no other platform issues any), so
`platforms_checked` strictly exceeds the number of probed platforms. -/
theorem C10_platforms_checked (username : PyStr) (http : Http) :
    (check_social_media username http).stats.platforms_checked
        = (platformsCatalog (cleanVar username)).length ∧
    (platformsCatalog (cleanVar username)).length = 94 ∧
    (prioritizedPlatforms (platformsCatalog (cleanVar username))).length = MAX_PLATFORMS ∧
    (∀ q, q ∈ (check_social_media username http).reqlog.map Prod.fst ↔
        q ∈ (prioritizedPlatforms (platformsCatalog (cleanVar username))).map Prod.fst) ∧
    MAX_PLATFORMS < (platformsCatalog (cleanVar username)).length := by
  refine ⟨csm_platforms_checked username http, platformsCatalog_length _,
    prioritized_catalog_length _, ?_, ?_⟩
  · intro q
    constructor
    · intro hq
      rcases List.mem_map.mp hq with ⟨e, he, heq⟩
      rw [csm_reqlog] at he
      have := runPlatforms_reqlog_fst _ _ http _ [] [] e he
      rw [← heq]
      exact this
    · intro hq
      rcases List.mem_map.mp hq with ⟨e, he, heq⟩
      have hcov := runPlatforms_reqlog_cover (cleanVar username)
        (generate_username_variations username) http _ [] []
        (prioritized_catalog_urls_nonempty _) e he
      rw [csm_reqlog]
      exact List.mem_map.mpr ⟨(e.1, e.2), hcov, heq⟩
  · rw [platformsCatalog_length]
    decide

/-! # Claim C8 -/

theorem startsWith_iff (n : PyStr) : ∀ h : PyStr, startsWith n h = true ↔ n <+: h := by
  induction n with
  | nil => intro h; simp [startsWith]
  | cons a as ih =>
    intro h
    cases h with
    | nil =>
      simp only [startsWith]
      constructor
      · intro hc; cases hc
      · intro hc; exact absurd (List.eq_nil_of_prefix_nil hc) (List.cons_ne_nil _ _)
    | cons b bs =>
      simp only [startsWith, Bool.and_eq_true, beq_iff_eq, ih, List.cons_prefix_cons]

theorem containsSub_iff (n : PyStr) : ∀ h : PyStr, containsSub n h = true ↔ n <:+: h := by
  intro h
  induction h with
  | nil =>
    simp only [containsSub, List.isEmpty_iff, List.infix_nil]
  | cons c rest ih =>
    simp only [containsSub, Bool.or_eq_true, startsWith_iff, ih, List.infix_cons_iff]

theorem containsSub_map (f : Char → Char) (n h : PyStr) (hsub : containsSub n h = true) :
    containsSub (n.map f) (h.map f) = true := by
  rw [containsSub_iff] at *
  obtain ⟨s, t, rfl⟩ := hsub
  exact ⟨s.map f, t.map f, by simp⟩

theorem containsSub_middle (a b c h : PyStr) (hsub : containsSub (a ++ b ++ c) h = true) :
    containsSub b h = true := by
  rw [containsSub_iff] at *
  obtain ⟨s, t, rfl⟩ := hsub
  exact ⟨s ++ a, c ++ t, by simp⟩

/-- C8: for the hardcoded major-platform subset (Twitter, Instagram, Facebook),
a 200 response with no login redirect and no error phrases is classified Found
exactly when the body contains at least one profile-indicator term; with no
indicator it is NotFound.  Stated for an arbitrary error table, covering both
the `check_platform` and the `try_username_variations` classification sites. -/
theorem C8_profile_indicator_sanity (table : List (PyStr × List PyStr))
    (platform finalUrl body : PyStr)
    (hp : platform = "Twitter".data ∨ platform = "Instagram".data ∨
      platform = "Facebook".data)
    (hred : redirectedToLogin finalUrl = false)
    (herr : hasErrorIndicators table platform body = false) :
    profileExists table platform 200 finalUrl body = true ↔
      profile_indicators.any (fun ind => containsSub ind (lowerStr body)) = true := by
  have hlogin : containsSub "login".data finalUrl = false := by
    cases hc : containsSub "login".data finalUrl
    · rfl
    exfalso
    have h2 : containsSub "login".data (lowerStr finalUrl) = true := by
      have h3 := containsSub_map Char.toLower "login".data finalUrl hc
      exact h3
    have h4 : redirectedToLogin finalUrl = true := by
      unfold redirectedToLogin
      rw [List.any_eq_true]
      exact ⟨"login".data, by decide, h2⟩
    rw [h4] at hred
    cases hred
  have hacc : containsSub "accounts/login".data finalUrl = false := by
    cases hc : containsSub "accounts/login".data finalUrl
    · rfl
    exfalso
    have h2 : containsSub "login".data finalUrl = true := by
      have h3 := containsSub_middle "accounts/".data "login".data [] finalUrl
      rw [List.append_nil] at h3
      exact h3 hc
    rw [h2] at hlogin
    cases hlogin
  have hslash : containsSub "/login/".data finalUrl = false := by
    cases hc : containsSub "/login/".data finalUrl
    · rfl
    exfalso
    have h2 : containsSub "login".data finalUrl = true :=
      containsSub_middle "/".data "login".data "/".data finalUrl hc
    rw [h2] at hlogin
    cases hlogin
  rcases hp with rfl | rfl | rfl
  · unfold profileExists
    rw [herr, hred]
    simp
  · unfold profileExists
    rw [hacc, hlogin, herr, hred]
    simp
  · unfold profileExists
    rw [hlogin, hslash, herr, hred]
    simp

/-- Witness for `C8_profile_indicator_sanity`: Twitter, a 200 response whose
body mentions `"followers"`, under the primary error table. -/
theorem C8_witness :
    profileExists error_indicators "Twitter".data 200 "https://twitter.com/john".data
      "profile of john - 10 followers".data = true :=
  (C8_profile_indicator_sanity error_indicators "Twitter".data
    "https://twitter.com/john".data "profile of john - 10 followers".data
    (Or.inl rfl) (by decide) (by decide)).mpr (by decide)

/-! # Claims C9 and C7 -/

/-- C9: the reverse-image link builder always returns exactly the five fixed
engine keys in order, and each value is that engine's fixed URL template with
the percent-encoded input URL substituted in — deterministic in the input. -/
theorem C9_reverse_image_urls (url : PyStr) :
    (reverse_image_urls url).map Prod.fst
      = ["Google".data, "Bing".data, "Yandex".data, "Baidu".data, "TinEye".data] ∧
    ∀ e ∈ reverse_image_urls url, ∃ pre suf, e.2 = pre ++ quote_plus url ++ suf := by
  refine ⟨rfl, ?_⟩
  intro e he
  simp only [reverse_image_urls, List.mem_cons, List.not_mem_nil, or_false] at he
  rcases he with rfl | rfl | rfl | rfl | rfl
  · exact ⟨"https://lens.google.com/uploadbyurl?url=".data, [], by simp⟩
  · exact ⟨("https://www.bing.com/images/search?view=detailv2&iss=sbi&form=SBIVSP"
      ++ "&sbisrc=UrlPaste&q=imgurl:").data, [], by simp⟩
  · exact ⟨"https://yandex.com/images/search?source=collections&&url=".data,
      "&rpt=imageview".data, by simp⟩
  · exact ⟨"https://graph.baidu.com/details?isfromtusoupc=1&tn=pc&carousel=0&image=".data,
      [], by simp⟩
  · exact ⟨"https://tineye.com/search?url=".data, [], by simp⟩

/-- Witness for `C9_reverse_image_urls` at a concrete image URL (the Google
entry). -/
theorem C9_witness :
    ∃ pre suf,
      (("Google".data : PyStr),
        "https://lens.google.com/uploadbyurl?url=".data
          ++ quote_plus "http://x.com/a b.jpg".data).2
        = pre ++ quote_plus "http://x.com/a b.jpg".data ++ suf :=
  (C9_reverse_image_urls "http://x.com/a b.jpg".data).2 _ (by decide)

/-- Every variation-URL rule in the hardcoded chain is
`prefix ++ cleaned-variation ++ suffix`, independent of the shared results
dict. -/
theorem variation_url_table_spec :
    ∀ e ∈ variation_url_table,
    ∀ (cv : PyStr) (results : List (PyStr × Option PyStr)),
      variation_url e.1 cv results = e.2.1 ++ cv ++ e.2.2 := by
  intro e he
  fin_cases he
  all_goals intro cv results
  all_goals first
    | rfl
    | (rw [show ("".data : PyStr) = [] from rfl, List.append_nil]; rfl)

theorem variation_url_table_pre_ne :
    ∀ p pre suf, (p, pre, suf) ∈ variation_url_table → pre ≠ [] := by
  intro p pre suf hmem hh
  subst hh
  have hall : variation_url_table.all (fun e => !e.2.1.isEmpty) = true := by decide
  have h2 := List.all_eq_true.mp hall _ hmem
  simp at h2

/-- Outside the hardcoded chain, with no stored original URL for the platform,
the generic fallback produces the empty URL. -/
theorem variation_url_not_table (platform cv : PyStr)
    (results : List (PyStr × Option PyStr))
    (hnot : platform ∉ variation_url_table.map Prod.fst)
    (hres : dictGet platform results = none) :
    variation_url platform cv results = [] := by
  have e0 : (platform == "Instagram".data) = false := by
    rw [beq_eq_false_iff_ne]
    intro hh
    exact hnot (by rw [hh]; decide)
  have e1 : (platform == "Twitter".data) = false := by
    rw [beq_eq_false_iff_ne]
    intro hh
    exact hnot (by rw [hh]; decide)
  have e2 : (platform == "GitHub".data) = false := by
    rw [beq_eq_false_iff_ne]
    intro hh
    exact hnot (by rw [hh]; decide)
  have e3 : (platform == "Telegram".data) = false := by
    rw [beq_eq_false_iff_ne]
    intro hh
    exact hnot (by rw [hh]; decide)
  have e4 : (platform == "TikTok".data) = false := by
    rw [beq_eq_false_iff_ne]
    intro hh
    exact hnot (by rw [hh]; decide)
  have e5 : (platform == "Facebook".data) = false := by
    rw [beq_eq_false_iff_ne]
    intro hh
    exact hnot (by rw [hh]; decide)
  have e6 : (platform == "LinkedIn".data) = false := by
    rw [beq_eq_false_iff_ne]
    intro hh
    exact hnot (by rw [hh]; decide)
  have e7 : (platform == "Pinterest".data) = false := by
    rw [beq_eq_false_iff_ne]
    intro hh
    exact hnot (by rw [hh]; decide)
  have e8 : (platform == "Snapchat".data) = false := by
    rw [beq_eq_false_iff_ne]
    intro hh
    exact hnot (by rw [hh]; decide)
  have e9 : (platform == "Linktr.ee".data) = false := by
    rw [beq_eq_false_iff_ne]
    intro hh
    exact hnot (by rw [hh]; decide)
  have e10 : (platform == "Gitlab".data) = false := by
    rw [beq_eq_false_iff_ne]
    intro hh
    exact hnot (by rw [hh]; decide)
  have e11 : (platform == "Reddit".data) = false := by
    rw [beq_eq_false_iff_ne]
    intro hh
    exact hnot (by rw [hh]; decide)
  have e12 : (platform == "YouTube".data) = false := by
    rw [beq_eq_false_iff_ne]
    intro hh
    exact hnot (by rw [hh]; decide)
  have e13 : (platform == "Tumblr".data) = false := by
    rw [beq_eq_false_iff_ne]
    intro hh
    exact hnot (by rw [hh]; decide)
  have e14 : (platform == "Vimeo".data) = false := by
    rw [beq_eq_false_iff_ne]
    intro hh
    exact hnot (by rw [hh]; decide)
  have e15 : (platform == "SoundCloud".data) = false := by
    rw [beq_eq_false_iff_ne]
    intro hh
    exact hnot (by rw [hh]; decide)
  have e16 : (platform == "Flickr".data) = false := by
    rw [beq_eq_false_iff_ne]
    intro hh
    exact hnot (by rw [hh]; decide)
  have e17 : (platform == "Dribbble".data) = false := by
    rw [beq_eq_false_iff_ne]
    intro hh
    exact hnot (by rw [hh]; decide)
  have e18 : (platform == "Medium".data) = false := by
    rw [beq_eq_false_iff_ne]
    intro hh
    exact hnot (by rw [hh]; decide)
  have e19 : (platform == "DeviantArt".data) = false := by
    rw [beq_eq_false_iff_ne]
    intro hh
    exact hnot (by rw [hh]; decide)
  have e20 : (platform == "Quora".data) = false := by
    rw [beq_eq_false_iff_ne]
    intro hh
    exact hnot (by rw [hh]; decide)
  have e21 : (platform == "Steam".data) = false := by
    rw [beq_eq_false_iff_ne]
    intro hh
    exact hnot (by rw [hh]; decide)
  have e22 : (platform == "Discord".data) = false := by
    rw [beq_eq_false_iff_ne]
    intro hh
    exact hnot (by rw [hh]; decide)
  have e23 : (platform == "Twitch".data) = false := by
    rw [beq_eq_false_iff_ne]
    intro hh
    exact hnot (by rw [hh]; decide)
  have e24 : (platform == "HackerRank".data) = false := by
    rw [beq_eq_false_iff_ne]
    intro hh
    exact hnot (by rw [hh]; decide)
  have e25 : (platform == "Hackernoon".data) = false := by
    rw [beq_eq_false_iff_ne]
    intro hh
    exact hnot (by rw [hh]; decide)
  have e26 : (platform == "Trello".data) = false := by
    rw [beq_eq_false_iff_ne]
    intro hh
    exact hnot (by rw [hh]; decide)
  have e27 : (platform == "Codechef".data) = false := by
    rw [beq_eq_false_iff_ne]
    intro hh
    exact hnot (by rw [hh]; decide)
  have e28 : (platform == "Gist".data) = false := by
    rw [beq_eq_false_iff_ne]
    intro hh
    exact hnot (by rw [hh]; decide)
  unfold variation_url
  simp only [e0, e1, e2, e3, e4, e5, e6, e7, e8, e9, e10, e11, e12, e13, e14, e15, e16, e17, e18, e19, e20, e21, e22, e23, e24, e25, e26, e27, e28, Bool.false_eq_true, if_false]
  rw [hres]

/-- The `variations[1:]` loop over a platform of the hardcoded URL table
refines the spec-side "substitute, GET, stop at first Found" iteration: the
requested URLs are exactly `spec_variation_requests`, and the loop reports
Found exactly when some variation's URL classifies as Found. -/
theorem tryLoop_table (platform pre suf : PyStr) (http : Http)
    (hurl : ∀ (cv : PyStr) (results : List (PyStr × Option PyStr)),
      variation_url platform cv results = pre ++ cv ++ suf)
    (hpre : pre ≠ []) :
    ∀ (vars : List PyStr) (results : List (PyStr × Option PyStr))
      (pstats : List (PyStr × PlatformStat)),
    (tryVariationsLoop platform http vars results pstats).requests
      = spec_variation_requests pre suf (variationFound platform http) vars ∧
    ((tryVariationsLoop platform http vars results pstats).found = true ↔
      ∃ v ∈ vars, variationFound platform http (pre ++ cleanVar v ++ suf) = true) := by
  intro vars
  induction vars with
  | nil =>
    intro results pstats
    exact ⟨rfl, by simp [tryVariationsLoop, spec_variation_requests]⟩
  | cons var rest ih =>
    intro results pstats
    simp only [tryVariationsLoop, spec_variation_requests]
    rw [hurl (cleanVar var) results]
    rw [if_neg (fun hh => hpre (List.append_eq_nil.mp (List.append_eq_nil.mp hh).1).1)]
    split
    case h_1 status finalUrl body rt heq =>
      have hvf : variationFound platform http (pre ++ cleanVar var ++ suf)
          = profileExists error_indicators_var platform status finalUrl body := by
        unfold variationFound
        rw [heq]
      split
      case isTrue hpe =>
        refine ⟨by rw [if_pos (by rw [hvf]; exact hpe)], ?_⟩
        simp only [List.mem_cons]
        constructor
        · intro _
          exact ⟨var, Or.inl rfl, by rw [hvf]; exact hpe⟩
        · intro _
          trivial
      case isFalse hpe =>
        obtain ⟨ih1, ih2⟩ := ih results pstats
        have hvf2 : variationFound platform http (pre ++ cleanVar var ++ suf) = false := by
          rw [hvf]
          exact (Bool.not_eq_true _).mp hpe
        refine ⟨?_, ?_⟩
        · rw [if_neg (by rw [hvf2]; exact Bool.false_ne_true), ih1]
        · rw [ih2]
          simp only [List.mem_cons]
          constructor
          · rintro ⟨v, hv, hfound⟩
            exact ⟨v, Or.inr hv, hfound⟩
          · rintro ⟨v, hv | hv, hfound⟩
            · subst hv
              rw [hvf2] at hfound
              cases hfound
            · exact ⟨v, hv, hfound⟩
    case h_2 heq =>
      obtain ⟨ih1, ih2⟩ := ih results pstats
      have hvf2 : variationFound platform http (pre ++ cleanVar var ++ suf) = false := by
        unfold variationFound
        rw [heq]
      refine ⟨?_, ?_⟩
      · rw [if_neg (by rw [hvf2]; exact Bool.false_ne_true), ih1]
      · rw [ih2]
        simp only [List.mem_cons]
        constructor
        · rintro ⟨v, hv, hfound⟩
          exact ⟨v, Or.inr hv, hfound⟩
        · rintro ⟨v, hv | hv, hfound⟩
          · subst hv
            rw [hvf2] at hfound
            cases hfound
          · exact ⟨v, hv, hfound⟩
    case h_3 msg rt heq =>
      obtain ⟨ih1, ih2⟩ := ih results pstats
      have hvf2 : variationFound platform http (pre ++ cleanVar var ++ suf) = false := by
        unfold variationFound
        rw [heq]
      refine ⟨?_, ?_⟩
      · rw [if_neg (by rw [hvf2]; exact Bool.false_ne_true), ih1]
      · rw [ih2]
        simp only [List.mem_cons]
        constructor
        · rintro ⟨v, hv, hfound⟩
          exact ⟨v, Or.inr hv, hfound⟩
        · rintro ⟨v, hv | hv, hfound⟩
          · subst hv
            rw [hvf2] at hfound
            cases hfound
          · exact ⟨v, hv, hfound⟩

/-- Outside the URL table, with no stored result for the platform, the loop
issues no requests at all and never reports Found. -/
theorem tryLoop_no_table (platform : PyStr) (http : Http)
    (hnot : platform ∉ variation_url_table.map Prod.fst) :
    ∀ (vars : List PyStr) (results : List (PyStr × Option PyStr))
      (pstats : List (PyStr × PlatformStat)),
    dictGet platform results = none →
    (tryVariationsLoop platform http vars results pstats).requests = [] ∧
    (tryVariationsLoop platform http vars results pstats).found = false := by
  intro vars
  induction vars with
  | nil => intro results pstats _; exact ⟨rfl, rfl⟩
  | cons var rest ih =>
    intro results pstats hres
    simp only [tryVariationsLoop]
    rw [variation_url_not_table platform (cleanVar var) results hnot hres,
      if_pos rfl]
    exact ih results pstats hres

/-- C7 as stated is false: for a platform outside the hardcoded variation-URL
table (here `"Mix"`, which IS probed in every run), a NotFound primary response
triggers NO variation GETs at all — the generic fallback reads
`results[platform]`, which is never set at that point, and skips every
variation — even though `variations[1:]` is non-empty. -/
theorem C7_counterexample :
    (check_platform "john".data "Mix".data "https://mix.com/john".data
        (generate_username_variations "john".data) [] [] notFoundOracle).requests
      = ["https://mix.com/john".data] ∧
    (check_platform "john".data "Mix".data "https://mix.com/john".data
        (generate_username_variations "john".data) [] [] notFoundOracle).found = false ∧
    1 < (generate_username_variations "john".data).length ∧
    "Mix".data ∈ prioritizedNames := by decide

/-- C7 amended: the variation retry behaves as claimed only for the platforms
of the hardcoded URL table — there it iterates `variations[1:]` in order,
substitutes each cleaned variation into the platform's `prefix ++ v ++ suffix`
pattern, issues a GET per attempt, and stops at the first variation classified
Found; for every other platform (whose entry in the shared results dict is
still unset when the retry runs) no variation request is issued and the retry
reports not-found. -/
theorem C7_amended :
    (∀ p pre suf, (p, pre, suf) ∈ variation_url_table →
      ∀ (http : Http) (variations : List PyStr)
        (results : List (PyStr × Option PyStr)) (pstats : List (PyStr × PlatformStat)),
      (try_username_variations p variations results pstats http).requests
        = spec_variation_requests pre suf (variationFound p http) (variations.drop 1) ∧
      ((try_username_variations p variations results pstats http).found = true ↔
        ∃ v ∈ variations.drop 1,
          variationFound p http (pre ++ cleanVar v ++ suf) = true)) ∧
    (∀ p, p ∉ variation_url_table.map Prod.fst →
      ∀ (http : Http) (variations : List PyStr)
        (results : List (PyStr × Option PyStr)) (pstats : List (PyStr × PlatformStat)),
      dictGet p results = none →
      (try_username_variations p variations results pstats http).requests = [] ∧
      (try_username_variations p variations results pstats http).found = false) := by
  constructor
  · intro p pre suf hmem http variations results pstats
    exact tryLoop_table p pre suf http
      (variation_url_table_spec (p, pre, suf) hmem)
      (variation_url_table_pre_ne p pre suf hmem)
      (variations.drop 1) results pstats
  · intro p hnot http variations results pstats hres
    exact tryLoop_no_table p http hnot (variations.drop 1) results pstats hres

/-- Witness for `C7_amended`: GitHub (a table platform) under an all-404 oracle
with the variations of `"john"`, and the non-table platform `"Mix"`. -/
theorem C7_amended_witness :
    (try_username_variations "GitHub".data (generate_username_variations "john".data) [] []
        notFoundOracle).requests
      = spec_variation_requests "https://github.com/".data []
          (variationFound "GitHub".data notFoundOracle)
          ((generate_username_variations "john".data).drop 1) ∧
    (try_username_variations "Mix".data (generate_username_variations "john".data) [] []
        notFoundOracle).requests = [] :=
  ⟨(C7_amended.1 "GitHub".data "https://github.com/".data [] (by decide) notFoundOracle
      (generate_username_variations "john".data) [] []).1,
   (C7_amended.2 "Mix".data (by decide) notFoundOracle
      (generate_username_variations "john".data) [] [] rfl).1⟩

end ReconRadar

